import Mathlib

/-!
# Verification of the Indonesian-Maps documentation UI core

Shallow embedding of the cascading selection / map-overlay logic of
`script.js` (latest revision, given as `src/unnamed/part_001`), the only part
of the repository with real invariants.  JavaScript numbers are modelled as
`Option ℚ` (`none` = NaN); JSON values as the inductive `JsVal`;
the interleaved asynchronous continuations of the `mapManager` methods as a
small-step event machine over the global mutable state (`MState`).

Modelling conventions, stated once:
* `JNum := Option ℚ`: `none` stands for NaN; all other JS numbers are finite
  and modelled exactly as rationals (every numeric literal appearing in the
  source — `0.1`, `0.2`, `0.5`, zoom levels — is exactly representable).
* String→number conversions (`isNaN`'s ToNumber coercion, `parseFloat`)
  are implemented by a decimal parser; `parseFloat` of a value that is
  already a number is the number itself (float→string→float round-trips).
  Numeric stringification of rationals inside arrays is canonical; no claim
  exercises it.
* `JSON.parse` of a string payload is modelled by its outcome (`Option JsVal`,
  `none` when the text is not valid JSON and the parse throws).
* DOM elements of the documented page (the four selector controls and the
  info panel) are modelled as present; Leaflet base tile layers are outside
  the overlay model (they are not per-level overlays).
-/

namespace IndoMaps

/-- A JavaScript number: `none` models NaN, `some q` a finite double. -/
abbrev JNum := Option ℚ

/-- A cleaned coordinate pair `[lat, lng]` as produced by the boundary
coordinate cleaning (`coords.map(pt => [parseFloat(pt[0]), parseFloat(pt[1])])`). -/
abbrev Point := JNum × JNum

/-- JSON-ish JavaScript values occurring in boundary payloads. -/
inductive JsVal : Type where
  | num (q : ℚ)
  | nan
  | null
  | undefined
  | bool (b : Bool)
  | str (s : String)
  | arr (l : List JsVal)

/-- `Array.isArray`. -/
def JsVal.isArray : JsVal → Bool
  | .arr _ => true
  | _ => false

/-- Parse a maximal run of decimal digits from the front of a char list:
value, number of digits consumed (0 = no digits), rest. -/
def parseDigits : List Char → ℕ × ℕ × List Char
  | [] => (0, 0, [])
  | c :: cs =>
    if c.isDigit then
      let (v, k, rest) := parseDigits cs
      ((c.toNat - '0'.toNat) * 10 ^ k + v, k + 1, rest)
    else (0, 0, c :: cs)

/-- Parse an optional exponent suffix body (after the `e`/`E`); on a malformed
exponent `parseFloat` stops before the `e`, so we fall back. -/
def parseExpBody (rest fallback : List Char) : ℤ × List Char :=
  match rest with
  | '-' :: r2 =>
    let (v, k, r3) := parseDigits r2
    if k = 0 then (0, fallback) else (-(v : ℤ), r3)
  | '+' :: r2 =>
    let (v, k, r3) := parseDigits r2
    if k = 0 then (0, fallback) else ((v : ℤ), r3)
  | r2 =>
    let (v, k, r3) := parseDigits r2
    if k = 0 then (0, fallback) else ((v : ℤ), r3)

/-- Parse a leading optionally-signed decimal literal (integer part, optional
fraction, optional exponent), as `parseFloat` does after skipping whitespace;
`none` when no digits are found. -/
def parseNumPrefix (cs : List Char) : Option (ℚ × List Char) :=
  let (sgn, cs1) :=
    match cs with
    | '-' :: rest => ((-1 : ℚ), rest)
    | '+' :: rest => ((1 : ℚ), rest)
    | _ => ((1 : ℚ), cs)
  let (iv, ik, cs2) := parseDigits cs1
  let (fv, fk, cs3) :=
    match cs2 with
    | '.' :: rest =>
      let (v, k, r) := parseDigits rest
      if k = 0 then (0, 0, cs2) else (v, k, r)
    | _ => ((0 : ℕ), (0 : ℕ), cs2)
  if ik = 0 ∧ fk = 0 then none
  else
    let mant : ℚ := sgn * ((iv : ℚ) + (fv : ℚ) / 10 ^ fk)
    let (ex, _cs4) :=
      match cs3 with
      | 'e' :: rest => parseExpBody rest cs3
      | 'E' :: rest => parseExpBody rest cs3
      | _ => ((0 : ℤ), cs3)
    some (mant * (10 : ℚ) ^ ex, _cs4)

/-- `parseFloat` on a string: skip leading whitespace, parse a leading
numeric literal, NaN (`none`) when none. -/
def strParseFloat (s : String) : JNum :=
  match parseNumPrefix (s.data.dropWhile Char.isWhitespace) with
  | some (q, _) => some q
  | none => none

/-- ToNumber on a string: trimmed empty string is `0`; otherwise the whole
trimmed string must be a numeric literal, else NaN. -/
def strToNumber (s : String) : JNum :=
  let t := s.data.dropWhile Char.isWhitespace |>.reverse.dropWhile Char.isWhitespace |>.reverse
  if t.isEmpty then some 0
  else
    match parseNumPrefix t with
    | some (q, []) => some q
    | _ => none

/-- Canonical stringification of a rational; placeholder for JS
number-to-string (exercised by no claim: claims never feed numbers through
string conversion). -/
def ratToString (q : ℚ) : String :=
  if q.den = 1 then toString q.num else toString q.num ++ "/" ++ toString q.den

mutual

/-- A single element as rendered by `Array.prototype.join`: `null`/`undefined`
render as the empty string. -/
def jsJoinElem : JsVal → String
  | .null => ""
  | .undefined => ""
  | .num q => ratToString q
  | .nan => "NaN"
  | .bool b => if b then "true" else "false"
  | .str s => s
  | .arr l => jsArrayToString l

/-- Array `toString` (the ToPrimitive used by ToNumber on arrays): `join(",")`. -/
def jsArrayToString : List JsVal → String
  | [] => ""
  | [x] => jsJoinElem x
  | x :: xs => jsJoinElem x ++ "," ++ jsArrayToString xs

end

/-- JS ToNumber, the coercion applied by the global `isNaN`. -/
def jsToNumber : JsVal → JNum
  | .num q => some q
  | .nan => none
  | .null => some 0
  | .undefined => none
  | .bool b => some (if b then 1 else 0)
  | .str s => strToNumber s
  | .arr l => strToNumber (jsArrayToString l)

/-- The global `isNaN(v)`: ToNumber-coerce, test for NaN. -/
def jsIsNaN (v : JsVal) : Bool := (jsToNumber v).isNone

/-- The global `parseFloat(v)`: stringify, then parse a leading float.
On a value that is already a (finite) number this is the number itself. -/
def jsParseFloat : JsVal → JNum
  | .num q => some q
  | .nan => none
  | .null => none
  | .undefined => none
  | .bool _ => none
  | .str s => strParseFloat s
  | .arr l => strParseFloat (jsArrayToString l)

/-!
## Polygon normalization
`mapManager.showProvinceBoundary` / `showCityBoundary`
(`src/unnamed/part_001` lines 804–948; the two bodies are identical up to the
layer global and style).  Thrown JS exceptions are modelled by `Except Unit`;
the surrounding `try`/`catch` absorbs them.
-/

/-- `v[0]`: property access `[0]`.  `null`/`undefined` throw a `TypeError`;
an array yields its first element or `undefined`; a string yields its first
character (a 1-char string) or `undefined`; other primitives have no `"0"`
property and yield `undefined`. -/
def jsIndex0 : JsVal → Except Unit JsVal
  | .arr l => .ok (l.headD .undefined)
  | .str s =>
    .ok (match s.data with
         | [] => .undefined
         | c :: _ => .str (String.mk [c]))
  | .null => .error ()
  | .undefined => .error ()
  | _ => .ok .undefined

/-- The filter predicate on candidate points (line 833 / 847):
`Array.isArray(pt) && pt.length === 2 && !isNaN(pt[0]) && !isNaN(pt[1])`. -/
def validPt : JsVal → Bool
  | .arr [a, b] => !jsIsNaN a && !jsIsNaN b
  | _ => false

/-- The cleaning map (line 834 / 848): `[parseFloat(pt[0]), parseFloat(pt[1])]`
(only ever applied to values that passed `validPt`, hence 2-element arrays). -/
def toPt : JsVal → Point
  | .arr [a, b] => (jsParseFloat a, jsParseFloat b)
  | _ => (none, none)

/-- JS strict equality `===` on two numbers: NaN is unequal to everything. -/
def jnumEq : JNum → JNum → Bool
  | some a, some b => a == b
  | _, _ => false

/-- Pointwise `===` as used by the closing check (line 840 / 852):
`first[0] !== last[0] || first[1] !== last[1]` negated. -/
def ptEq (p q : Point) : Bool := jnumEq p.1 q.1 && jnumEq p.2 q.2

/-- Close a cleaned ring (lines 838–843 / 850–854): if the first and last
points differ under `===`, append a copy of the first point. -/
def closeRing (coords : List Point) : List Point :=
  match coords.head?, coords.getLast? with
  | some f, some l => if ptEq f l then coords else coords ++ [f]
  | _, _ => coords

/-- One multi-polygon candidate ring (the arrow function at lines 831–844 /
904–917): filter to valid points, coerce, return `null` (`none`) if fewer
than 3 points survive, else the closed ring.  Calling `.filter` on a
non-array throws. -/
def cleanPoly : JsVal → Except Unit (Option (List Point))
  | .arr pts =>
    if ((pts.filter validPt).map toPt).length < 3 then .ok none
    else .ok (some (closeRing ((pts.filter validPt).map toPt)))
  | _ => .error ()

/-- The single-polygon branch (lines 845–857 / 918–930): same cleaning; the
result is a one-ring list when ≥ 3 points survive, else no rings. -/
def singlePoly : JsVal → Except Unit (List (List Point))
  | .arr pts =>
    if ((pts.filter validPt).map toPt).length ≥ 3 then
      .ok [closeRing ((pts.filter validPt).map toPt)]
    else .ok []
  | _ => .error ()

/-- `pathCoordinates.map(poly => ...)` in the multi-polygon branch: left to
right, a thrown exception aborting the whole map. -/
def mapPolys : List JsVal → Except Unit (List (Option (List Point)))
  | [] => .ok []
  | p :: ps =>
    match cleanPoly p, mapPolys ps with
    | .ok c, .ok cs => .ok (c :: cs)
    | .error e, _ => .error e
    | _, .error e => .error e

/-- The multi-polygon branch result: the mapped candidates with the `null`s
filtered out (`.filter(Boolean)`). -/
def multiPolys (polys : List JsVal) : Except Unit (List (List Point)) :=
  match mapPolys polys with
  | .error e => .error e
  | .ok cleaned => .ok (cleaned.filterMap id)

/-- The multi-polygon branch applied to the raw path value: `.map` on a
non-array throws (unreachable: the shape test already forces an array). -/
def multiBranch : JsVal → Except Unit (List (List Point))
  | .arr polys => multiPolys polys
  | _ => .error ()

/-- The `polygons` list computed from parsed path coordinates
(lines 827–857): shape detection via `Array.isArray(path[0][0])`, then the
multi-polygon branch (`.map(...).filter(Boolean)`) or the single-polygon
branch.  `.error` = a thrown exception reaching the outer `catch`. -/
def boundaryPolygons (v : JsVal) : Except Unit (List (List Point)) :=
  match jsIndex0 v with
  | .error e => .error e
  | .ok first =>
    match jsIndex0 first with
    | .error e => .error e
    | .ok first0 =>
      if first0.isArray then
        multiBranch v
      else
        singlePoly v

/-- The rings the boundary function actually renders for parsed coordinates
`v`: the computed `polygons` list, or no rings at all when the computation
throws (caught) or yields zero polygons (early return, line 859–862). -/
def renderedRings (v : JsVal) : List (List Point) :=
  match boundaryPolygons v with
  | .error _ => []
  | .ok l => l

/-! ### Ring-shape lemmas -/

/-! ### Claim C4: validity of the rendered rings -/

/-- A 2-element array of plain (finite) numbers. -/
def numericPair : JsVal → Bool
  | .arr [.num _, .num _] => true
  | _ => false

/-- From the spec's words: a "structurally valid triangle" — a candidate ring
with at least 3 points, each a 2-element numeric pair. -/
def structTriangle : JsVal → Bool
  | .arr pts => decide (3 ≤ pts.length) && pts.all numericPair
  | _ => false

/-- From the spec's words: the payload "contains at least one structurally
valid triangle" — either the whole single-polygon path is one, or one of the
polygons of a multi-polygon path is. -/
def containsStructTriangle (v : JsVal) : Bool :=
  structTriangle v ||
    (match v with
     | .arr polys => polys.any structTriangle
     | _ => false)

/-- A multi-polygon payload whose first polygon is a perfectly valid triangle
and whose second polygon has a `[null, null]` point: `isNaN(null)` is `false`
(ToNumber coerces `null` to `0`), so the point passes the filter, but
`parseFloat(null)` is NaN, so NaN coordinates reach the rendered ring. -/
def nanLeakPayload : JsVal :=
  .arr [.arr [.arr [.num 0, .num 0], .arr [.num 0, .num 1], .arr [.num 1, .num 0]],
        .arr [.arr [.null, .null], .arr [.num 1, .num 2], .arr [.num 3, .num 4]]]

/-- The closed triangle ring produced from a one-triangle payload. -/
def triPayload : JsVal :=
  .arr [.arr [.arr [.num 0, .num 0], .arr [.num 0, .num 1], .arr [.num 1, .num 0]]]

/-! ### Claim C7: idempotence on already-normalized ring lists -/

/-- A ring already in normalized form (the claim's hypothesis): at least 3
points, every point a pair of finite numbers, first point equal to the last. -/
def normRing (r : List Point) : Prop :=
  3 ≤ r.length ∧ r.head? = r.getLast? ∧ ∀ p ∈ r, p.1.isSome ∧ p.2.isSome

instance (r : List Point) : Decidable (normRing r) := by
  unfold normRing; infer_instance

/-- Re-encode a model number as the JS value the code would hold. -/
def encodeNum : JNum → JsVal
  | some q => .num q
  | none => .nan

/-- Re-encode a cleaned point as a JS `[lat, lng]` array. -/
def encodePt (p : Point) : JsVal := .arr [encodeNum p.1, encodeNum p.2]

/-- Re-encode a ring. -/
def encodeRing (r : List Point) : JsVal := .arr (r.map encodePt)

/-- Re-encode a ring list as a multi-polygon payload. -/
def encodeRings (rs : List (List Point)) : JsVal := .arr (rs.map encodeRing)

/-!
## The `mapManager` state machine

Small-step embedding of the globals and the `mapManager` methods of
`src/unnamed/part_001`.  Each `async` method splits at its `await`s: the
synchronous prefix runs at the user event (`select…Issue`), and each awaited
fetch's continuation runs when that response arrives (`apply…`).  Between the
two, arbitrary other events may interleave (single-threaded event loop, §5 of
the spec).  A `Code` of `none` models the falsy codes `''`/`null`.
Thrown exceptions that escape a handler are reported as `Option String`
(the browser logs them; all global mutations made before the throw persist).
-/

abbrev Code := String

/-- The `selectedLocation` global (lines 24–29). -/
structure Selection where
  province : Option Code
  city : Option Code
  district : Option Code
  village : Option Code
deriving DecidableEq

/-- The `path` field of a geo payload.  `absent` covers a missing or falsy
path (line 806 `if (geoData && geoData.path)`); a string payload carries its
`JSON.parse` outcome (`none` = the parse throws, lines 814–819); a native
payload carries the value itself (lines 820–825: non-arrays are rejected). -/
inductive PathField where
  | absent
  | strPayload (parsed : Option JsVal)
  | native (v : JsVal)

/-- The fields of a geo payload that `mapManager` reads.  `info` abstracts
the descriptive fields (`nama_…`, `ibukota`, `penduduk`, …) rendered into
popups and the info panel. -/
structure GeoData where
  lat : JsVal
  lng : JsVal
  path : PathField
  info : String

/-- Outcome of an awaited geo fetch: the promise rejected (network/HTTP
error — `fetchData` rethrows), or resolved to a `{success, data}` response. -/
inductive FetchOutcome where
  | rejected
  | resolved (success : Bool) (data : Option GeoData)

/-- Outcome of a district/village detail fetch (descriptive data only). -/
inductive DetailOutcome where
  | rejected
  | resolved (success : Bool) (data : Option String)

/-- Outcome of a children-list fetch (the options to populate). -/
inductive ListOutcome where
  | rejected
  | resolved (success : Bool) (data : Option (List String))

/-- The six per-level overlay kinds owned by the `mapManager` globals
`currentProvinceLayer` … `cityBoundariesLayer`. -/
inductive LKind where
  | provMarker
  | cityMarker
  | distMarker
  | villMarker
  | provBoundary
  | cityBoundary
deriving DecidableEq

/-- What a live Leaflet layer displays. -/
inductive LayerData where
  | markerAt (pos : Point) (popup : String)
  | boundary (rings : List (List Point))

/-- A live layer on the map, identified by a fresh id. -/
structure Layer where
  lid : ℕ
  kind : LKind
  data : LayerData

/-- The rendered contents of a dependent selector control. -/
inductive SelContent where
  | placeholder
  | loading
  | failed
  | options (xs : List String)
deriving DecidableEq

/-- A dependent selector control (`city-selector` etc.). -/
structure Selector where
  content : SelContent
  disabled : Bool
deriving DecidableEq

/-- The info panel content (`province-info-content`). -/
inductive InfoContent where
  | blank
  | loadingInfo
  | errorInfo
  | details (info : String)
deriving DecidableEq

/-- The info panel (`province-info`). -/
structure InfoPanel where
  visible : Bool
  content : InfoContent
deriving DecidableEq

/-- The global mutable state: the Leaflet map (`mapInit` = the `map` global
is defined; `view` its center/zoom; `layers` the overlay layers on it), the
six layer globals, `selectedLocation`, and the DOM pieces the code mutates. -/
structure MState where
  mapInit : Bool
  view : Point × ℤ
  layers : List Layer
  nextId : ℕ
  curProv : Option ℕ
  curCity : Option ℕ
  curDist : Option ℕ
  curVill : Option ℕ
  provBnds : Option ℕ
  cityBnds : Option ℕ
  sel : Selection
  infoPanel : InfoPanel
  citySel : Selector
  distSel : Selector
  villSel : Selector

/-- `CONFIG.DEFAULT_COORDINATE` (line 6): Kudus, Jawa Tengah,
`[-6.8055, 110.8392]` as exact rationals. -/
def defaultCoordinate : Point := (some (-13611/2000 : ℚ), some (138549/1250 : ℚ))

/-- `CONFIG.DEFAULT_ZOOM` (line 7). -/
def defaultZoom : ℤ := 6

/-- The state right after `mapManager.init()` has set up the map and before
any selection: all layer globals `null`, `selectedLocation` empty, info panel
hidden, child selectors empty and disabled. -/
def initState : MState where
  mapInit := true
  view := (defaultCoordinate, defaultZoom)
  layers := []
  nextId := 0
  curProv := none
  curCity := none
  curDist := none
  curVill := none
  provBnds := none
  cityBnds := none
  sel := ⟨none, none, none, none⟩
  infoPanel := ⟨false, .blank⟩
  citySel := ⟨.placeholder, true⟩
  distSel := ⟨.placeholder, true⟩
  villSel := ⟨.placeholder, true⟩

/-- The layer global owning overlays of a kind. -/
def kindField (s : MState) : LKind → Option ℕ
  | .provMarker => s.curProv
  | .cityMarker => s.curCity
  | .distMarker => s.curDist
  | .villMarker => s.curVill
  | .provBoundary => s.provBnds
  | .cityBoundary => s.cityBnds

/-- Assign a layer global. -/
def setTracker (k : LKind) (v : Option ℕ) (s : MState) : MState :=
  match k with
  | .provMarker => {s with curProv := v}
  | .cityMarker => {s with curCity := v}
  | .distMarker => {s with curDist := v}
  | .villMarker => {s with curVill := v}
  | .provBoundary => {s with provBnds := v}
  | .cityBoundary => {s with cityBnds := v}

/-- `map.removeLayer(x)`: drop the layer with that id (a no-op when it is
not on the map, as in Leaflet). -/
def removeLayerId (id : ℕ) (s : MState) : MState :=
  {s with layers := s.layers.filter (fun l => l.lid ≠ id)}

/-- `if (x) { map.removeLayer(x) }` — remove without nulling the global. -/
def removeIfPresent (fld : Option ℕ) (s : MState) : MState :=
  match fld with
  | none => s
  | some id => removeLayerId id s

/-- `x = L.marker(...).addTo(map)` / `x = L.polygon(...).addTo(map)`:
create a fresh layer, add it to the map, assign the global. -/
def addTracked (k : LKind) (d : LayerData) (s : MState) : MState :=
  setTracker k (some s.nextId)
    {s with layers := s.layers ++ [⟨s.nextId, k, d⟩], nextId := s.nextId + 1}

/-- The remove-existing-then-add-and-assign pattern used by every marker
placement (e.g. lines 406–412). -/
def replaceTracked (k : LKind) (d : LayerData) (s : MState) : MState :=
  addTracked k d (removeIfPresent (kindField s k) s)

/-- `if (x) { map.removeLayer(x); x = null }` (e.g. lines 439–442). -/
def clearTracked (k : LKind) (s : MState) : MState :=
  match kindField s k with
  | none => s
  | some id => setTracker k none (removeLayerId id s)

/-- `clearVillageSelector` (lines 334–340). -/
def clearVillageSelectorF (s : MState) : MState :=
  {s with villSel := ⟨.placeholder, true⟩}

/-- `clearDistrictSelector` (lines 325–332). -/
def clearDistrictSelectorF (s : MState) : MState :=
  clearVillageSelectorF {s with distSel := ⟨.placeholder, true⟩}

/-- `clearCitySelector` (lines 316–323). -/
def clearCitySelectorF (s : MState) : MState :=
  clearDistrictSelectorF {s with citySel := ⟨.placeholder, true⟩}

/-- Shared tail of `showProvinceBoundary`/`showCityBoundary` once the parsed
path value is in hand (lines 827–870): compute `polygons`; zero polygons or a
thrown exception leave the map without a new layer, otherwise the polygon
layer is created and assigned. -/
def renderBoundary (k : LKind) (v : JsVal) (s1 : MState) : MState :=
  match boundaryPolygons v with
  | .error _ => s1
  | .ok [] => s1
  | .ok polys => addTracked k (.boundary polys) s1

/-- `showProvinceBoundary` / `showCityBoundary` (lines 804–875 / 877–948),
parameterized by the owning boundary kind: a falsy path does nothing; else
the existing boundary layer is removed *first* (lines 808–810, without
nulling the global), then the path is parsed; parse failures, unrecognized
formats and exceptions are absorbed (inner `catch`/`return`, outer `try`). -/
def showBoundaryF (k : LKind) (path : PathField) (s : MState) : MState :=
  match path with
  | .absent => s
  | .strPayload parsed =>
    let s1 := removeIfPresent (kindField s k) s
    match parsed with
    | none => s1
    | some v => renderBoundary k v s1
  | .native v =>
    let s1 := removeIfPresent (kindField s k) s
    if v.isArray then renderBoundary k v s1 else s1

/-- `mapManager.resetMap` (lines 728–802).  `map.setView` on an undefined
`map` throws a `TypeError`; otherwise the view is reset and the four marker
globals are cleared (lines 732–747), and then line 750 reads
`provinceBoundaryLayer` — an identifier that is *never declared or assigned
anywhere in the file* (the declared globals, lines 21–22, are
`provinceBoundariesLayer`/`cityBoundariesLayer`; line 754 likewise reads the
undeclared `cityBoundaryLayer`) — so evaluation throws a `ReferenceError`
and everything from line 750 on (boundary-layer removal, the
`selectedLocation` reset, the selector resets, hiding the info panel) is
unreachable. -/
def resetMapF (s : MState) : MState × Option String :=
  if s.mapInit = false then (s, some "TypeError: map is undefined")
  else
    let s1 := {s with view := (defaultCoordinate, defaultZoom)}
    let s2 := clearTracked .provMarker s1
    let s3 := clearTracked .cityMarker s2
    let s4 := clearTracked .distMarker s3
    let s5 := clearTracked .villMarker s4
    (s5, some "ReferenceError: provinceBoundaryLayer is not defined")

/-- `mapManager.selectProvince`, synchronous prefix (lines 375–398).  A falsy
code calls `resetMap` (whose exception propagates: this branch is outside the
`try`, so `clearCitySelector` is then skipped); a truthy code shows the
loading indicator and stores the selection, then issues the geo fetch. -/
def selectProvinceIssue (code : Option Code) (s : MState) : MState × Option String :=
  match code with
  | none =>
    let (s1, err) := resetMapF s
    match err with
    | some e => (s1, some e)
    | none => (clearCitySelectorF s1, none)
  | some c =>
    ({s with infoPanel := ⟨true, .loadingInfo⟩,
             sel := ⟨some c, none, none, none⟩}, none)

/-- `selectProvince`, continuation after `getProvinceGeo` resolves
(lines 399–433): on a successful response with parseable coordinates,
replace the province marker, pan to the coordinate at zoom 8, fill the info
panel, auto-show the boundary, and put the city selector into its loading
state (the synchronous prefix of `populateCitySelector`, lines 233–234);
on rejection the `catch` writes the inline error message. -/
def applyProvinceGeo (outcome : FetchOutcome) (s : MState) : MState :=
  match outcome with
  | .rejected => {s with infoPanel := {s.infoPanel with content := .errorInfo}}
  | .resolved success data =>
    match success, data with
    | true, some g =>
      match jsParseFloat g.lat, jsParseFloat g.lng with
      | some la, some ln =>
        let s1 := replaceTracked .provMarker (.markerAt (some la, some ln) g.info) s
        let s2 := {s1 with view := ((some la, some ln), 8),
                           infoPanel := ⟨true, .details g.info⟩}
        let s3 := showBoundaryF .provBoundary g.path s2
        {s3 with citySel := ⟨.loading, true⟩}
      | _, _ => s
    | _, _ => s

/-- `populateCitySelector`, continuation after `getCities` resolves
(lines 236–250): fill and enable on success; on rejection show the error
options (the control stays disabled); a `success:false`/dataless response
leaves the Loading state in place. -/
def applyCities (outcome : ListOutcome) (s : MState) : MState :=
  match outcome with
  | .rejected => {s with citySel := {s.citySel with content := .failed}}
  | .resolved success data =>
    match success, data with
    | true, some xs => {s with citySel := ⟨.options xs, false⟩}
    | _, _ => s

/-- `mapManager.selectCity`, synchronous prefix (lines 436–453). -/
def selectCityIssue (code : Option Code) (s : MState) : MState :=
  match code with
  | none =>
    let s1 := clearTracked .cityMarker s
    let s2 := clearDistrictSelectorF s1
    {s2 with sel := {s2.sel with city := none, district := none, village := none}}
  | some c =>
    {s with sel := {s.sel with city := some c, district := none, village := none}}

/-- `selectCity`, continuation after `getCityGeo` resolves (lines 455–512):
marker, pan to zoom 10, auto-show city boundary, district selector into
loading (`populateDistrictSelector` prefix).  No info-panel update here. -/
def applyCityGeo (outcome : FetchOutcome) (s : MState) : MState :=
  match outcome with
  | .rejected => s
  | .resolved success data =>
    match success, data with
    | true, some g =>
      match jsParseFloat g.lat, jsParseFloat g.lng with
      | some la, some ln =>
        let s1 := replaceTracked .cityMarker (.markerAt (some la, some ln) g.info) s
        let s2 := {s1 with view := ((some la, some ln), 10)}
        let s3 := showBoundaryF .cityBoundary g.path s2
        {s3 with distSel := ⟨.loading, true⟩}
      | _, _ => s
    | _, _ => s

/-- `populateDistrictSelector`, continuation (lines 268–282). -/
def applyDistricts (outcome : ListOutcome) (s : MState) : MState :=
  match outcome with
  | .rejected => {s with distSel := {s.distSel with content := .failed}}
  | .resolved success data =>
    match success, data with
    | true, some xs => {s with distSel := ⟨.options xs, false⟩}
    | _, _ => s

/-- `populateVillageSelector`, continuation (lines 299–313). -/
def applyVillages (outcome : ListOutcome) (s : MState) : MState :=
  match outcome with
  | .rejected => {s with villSel := {s.villSel with content := .failed}}
  | .resolved success data =>
    match success, data with
    | true, some xs => {s with villSel := ⟨.options xs, false⟩}
    | _, _ => s

/-- `mapManager.selectDistrict`, synchronous prefix (lines 515–530). -/
def selectDistrictIssue (code : Option Code) (s : MState) : MState :=
  match code with
  | none =>
    let s1 := clearTracked .distMarker s
    let s2 := clearVillageSelectorF s1
    {s2 with sel := {s2.sel with district := none, village := none}}
  | some c =>
    {s with sel := {s.sel with district := some c, village := none}}

/-- `selectDistrict`, continuation after `getDistrictDetail` resolves
(lines 533–545): no global state is mutated in this segment — on a
successful response it only *checks* `selectedLocation.city` and, when set,
issues the city-geo fetch whose continuation (`applyDistrictCityGeo`) does
all the visible work; when `selectedLocation.city` is unset nothing further
happens at all. -/
def applyDistrictDetail (outcome : DetailOutcome) (s : MState) : MState :=
  match outcome with
  | .rejected => s
  | .resolved success data =>
    match success, data with
    | true, some _dd =>
      match s.sel.city with
      | some _ => s
      | none => s
    | _, _ => s

/-- `selectDistrict`, continuation after the inner `getCityGeo` resolves
(lines 541–596): the approximate marker at the city coordinate plus a random
offset `(r − 0.5) * 0.1` per axis (`r = Math.random()`), pan to it at zoom
12, village selector into loading.  There is no NaN guard here: a NaN city
coordinate propagates into the marker position and view. -/
def applyDistrictCityGeo (dd : String) (outcome : FetchOutcome) (r1 r2 : ℚ)
    (s : MState) : MState :=
  match outcome with
  | .rejected => s
  | .resolved success data =>
    match success, data with
    | true, some cg =>
      let pos : Point :=
        ((jsParseFloat cg.lat).map (fun x => x + (r1 - 1/2) * (1/10)),
         (jsParseFloat cg.lng).map (fun x => x + (r2 - 1/2) * (1/10)))
      let s1 := replaceTracked .distMarker (.markerAt pos dd) s
      let s2 := {s1 with view := (pos, 12)}
      {s2 with villSel := ⟨.loading, true⟩}
    | _, _ => s

/-- `mapManager.selectVillage`, synchronous prefix (lines 604–617). -/
def selectVillageIssue (code : Option Code) (s : MState) : MState :=
  match code with
  | none =>
    let s1 := clearTracked .villMarker s
    {s1 with sel := {s1.sel with village := none}}
  | some c =>
    {s with sel := {s.sel with village := some c}}

/-- `selectVillage`, continuation after `getVillageDetail` resolves
(lines 619–631): same shape as the district one — a check of
`selectedLocation.city` only, no mutation. -/
def applyVillageDetail (outcome : DetailOutcome) (s : MState) : MState :=
  match outcome with
  | .rejected => s
  | .resolved success data =>
    match success, data with
    | true, some _dd =>
      match s.sel.city with
      | some _ => s
      | none => s
    | _, _ => s

/-- `selectVillage`, continuation after the inner `getCityGeo` resolves
(lines 626–684): offset `(r − 0.5) * 0.2` per axis, pan at zoom 14; no child
selector to populate. -/
def applyVillageCityGeo (dd : String) (outcome : FetchOutcome) (r1 r2 : ℚ)
    (s : MState) : MState :=
  match outcome with
  | .rejected => s
  | .resolved success data =>
    match success, data with
    | true, some cg =>
      let pos : Point :=
        ((jsParseFloat cg.lat).map (fun x => x + (r1 - 1/2) * (1/5)),
         (jsParseFloat cg.lng).map (fun x => x + (r2 - 1/2) * (1/5)))
      let s1 := replaceTracked .villMarker (.markerAt pos dd) s
      {s1 with view := (pos, 14)}
    | _, _ => s

/-- The discrete events driving the machine: user selections and reset
clicks (running synchronous prefixes) and fetch completions (running the
awaiting continuation).  Resolve events model the completion of a fetch
issued by an earlier selection of the named code; `r1`, `r2` are the
`Math.random()` draws. -/
inductive Event where
  | selProvince (code : Option Code)
  | provGeo (code : Code) (outcome : FetchOutcome)
  | cities (code : Code) (outcome : ListOutcome)
  | selCity (code : Option Code)
  | cityGeo (code : Code) (outcome : FetchOutcome)
  | districts (code : Code) (outcome : ListOutcome)
  | selDistrict (code : Option Code)
  | distDetail (code : Code) (outcome : DetailOutcome)
  | distCityGeo (dd : String) (outcome : FetchOutcome) (r1 r2 : ℚ)
  | villages (code : Code) (outcome : ListOutcome)
  | selVillage (code : Option Code)
  | villDetail (code : Code) (outcome : DetailOutcome)
  | villCityGeo (dd : String) (outcome : FetchOutcome) (r1 r2 : ℚ)
  | resetClick

/-- One step of the event loop.  Exceptions escaping a handler are logged by
the browser and swallowed; the state mutated so far persists. -/
def stepEvent : Event → MState → MState
  | .selProvince c, s => (selectProvinceIssue c s).1
  | .provGeo _ o, s => applyProvinceGeo o s
  | .cities _ o, s => applyCities o s
  | .selCity c, s => selectCityIssue c s
  | .cityGeo _ o, s => applyCityGeo o s
  | .districts _ o, s => applyDistricts o s
  | .selDistrict c, s => selectDistrictIssue c s
  | .distDetail _ o, s => applyDistrictDetail o s
  | .distCityGeo dd o r1 r2, s => applyDistrictCityGeo dd o r1 r2 s
  | .villages _ o, s => applyVillages o s
  | .selVillage c, s => selectVillageIssue c s
  | .villDetail _ o, s => applyVillageDetail o s
  | .villCityGeo dd o r1 r2, s => applyVillageCityGeo dd o r1 r2 s
  | .resetClick, s => (resetMapF s).1

/-- The states reachable from the post-`init` state by any event sequence. -/
inductive Reach : MState → Prop where
  | init : Reach initState
  | step (e : Event) {s : MState} : Reach s → Reach (stepEvent e s)

/-! ### Frame lemmas: which state components each helper touches -/

/-! ### The overlay invariant (claim C8) -/

/-- The inductive invariant of the layer bookkeeping: every live layer is the
one its owning global currently tracks, ids are fresh and pairwise distinct. -/
structure Inv (s : MState) : Prop where
  tracked : ∀ l ∈ s.layers, kindField s l.kind = some l.lid
  fresh : ∀ l ∈ s.layers, l.lid < s.nextId
  nodup : (s.layers.map Layer.lid).Nodup

/-! ### Claim theorems over the state machine -/

/-- A province geo payload (DKI Jakarta-like). -/
def geoA : GeoData := ⟨.num (-6), .num (107), .absent, "DKI Jakarta"⟩

/-- A second province geo payload (Jawa Timur-like). -/
def geoB : GeoData := ⟨.num (-7), .num (113), .absent, "Jawa Timur"⟩

/-- The state after the user picks province "31" (synchronous prefix only). -/
def selectedProvinceState : MState :=
  stepEvent (.selProvince (some "31")) initState

/-- Issue A = "31", then B = "32" before A's fetch resolves. -/
def staleS2 : MState :=
  stepEvent (.selProvince (some "32")) (stepEvent (.selProvince (some "31")) initState)

/-- B's geo response arrives first and is applied. -/
def staleS3 : MState := stepEvent (.provGeo "32" (.resolved true (some geoB))) staleS2

/-- A's late geo response then arrives and is applied. -/
def staleS4 : MState := stepEvent (.provGeo "31" (.resolved true (some geoA))) staleS3

/-- The ancestor invariant of §3 of the spec on the selection tuple. -/
def ancestorInv (sel : Selection) : Prop :=
  (sel.city.isSome → sel.province.isSome) ∧
  (sel.district.isSome → sel.city.isSome) ∧
  (sel.village.isSome → sel.district.isSome)

instance (sel : Selection) : Decidable (ancestorInv sel) := by
  unfold ancestorInv
  infer_instance

/-- setProvince("31"), setCity(none), setDistrict("317101") — a hierarchy-order
sequence. -/
def brokenHierarchyState : MState :=
  stepEvent (.selDistrict (some "317101"))
    (stepEvent (.selCity none) (stepEvent (.selProvince (some "31")) initState))

/-- A multi-polygon payload of exactly one 2-point polygon. -/
def twoPointPayload : List JsVal := [.arr [.arr [.num 1, .num 2], .arr [.num 3, .num 4]]]

/-!
## Lemmas and claim theorems
-/

theorem jnumEq_eq {a b : JNum} (h : jnumEq a b = true) : a = b := by
  cases a <;> cases b <;> simp_all [jnumEq]

theorem ptEq_eq {p q : Point} (h : ptEq p q = true) : p = q := by
  rw [ptEq, Bool.and_eq_true] at h
  exact Prod.ext (jnumEq_eq h.1) (jnumEq_eq h.2)

theorem closeRing_spec (coords : List Point) (h : coords ≠ []) :
    coords.length ≤ (closeRing coords).length ∧
      (closeRing coords).head? = (closeRing coords).getLast? := by
  cases coords with
  | nil => exact absurd rfl h
  | cons a t =>
    obtain ⟨lst, hl⟩ : ∃ lst, (a :: t).getLast? = some lst :=
      ⟨_, List.getLast?_eq_getLast _ (by simp)⟩
    simp only [closeRing, List.head?_cons, hl]
    by_cases hpe : ptEq a lst = true
    · rw [if_pos hpe]
      refine ⟨le_refl _, ?_⟩
      rw [List.head?_cons, hl]
      exact congrArg some (ptEq_eq hpe)
    · rw [if_neg hpe]
      refine ⟨by simp, ?_⟩
      rw [show (a :: t) ++ [a] = a :: (t ++ [a]) from rfl, List.head?_cons,
        show a :: (t ++ [a]) = (a :: t) ++ [a] from rfl, List.getLast?_concat]

theorem cleanPoly_ok_some {p : JsVal} {r : List Point}
    (h : cleanPoly p = .ok (some r)) : 3 ≤ r.length ∧ r.head? = r.getLast? := by
  cases p <;> simp only [cleanPoly, reduceCtorEq] at h
  case arr pts =>
    by_cases hlen : ((pts.filter validPt).map toPt).length < 3
    · rw [if_pos hlen] at h
      simp at h
    · rw [if_neg hlen] at h
      have hr : closeRing ((pts.filter validPt).map toPt) = r := by
        simpa using h
      obtain ⟨hle, hcl⟩ := closeRing_spec ((pts.filter validPt).map toPt)
        (List.ne_nil_of_length_pos (by omega))
      rw [hr] at hle hcl
      exact ⟨by omega, hcl⟩

theorem singlePoly_ok_mem {p : JsVal} {l : List (List Point)} {r : List Point}
    (h : singlePoly p = .ok l) (hr : r ∈ l) :
    3 ≤ r.length ∧ r.head? = r.getLast? := by
  cases p <;> simp only [singlePoly, reduceCtorEq] at h
  case arr pts =>
    by_cases hlen : ((pts.filter validPt).map toPt).length ≥ 3
    · rw [if_pos hlen] at h
      obtain ⟨hle, hcl⟩ := closeRing_spec ((pts.filter validPt).map toPt)
        (List.ne_nil_of_length_pos (by omega))
      have hl' : [closeRing ((pts.filter validPt).map toPt)] = l := by simpa using h
      rw [← hl', List.mem_singleton] at hr
      rw [hr]
      exact ⟨by omega, hcl⟩
    · rw [if_neg hlen] at h
      have : l = [] := by simpa using h.symm
      simp [this] at hr

theorem mapPolys_ok_mem {ps : List JsVal} {cs : List (Option (List Point))}
    (h : mapPolys ps = .ok cs) {c : Option (List Point)} (hc : c ∈ cs) :
    ∃ p ∈ ps, cleanPoly p = .ok c := by
  induction ps generalizing cs with
  | nil =>
    simp only [mapPolys] at h
    obtain rfl : ([] : List (Option (List Point))) = cs := by simpa using h
    simp at hc
  | cons p ps ih =>
    rw [mapPolys] at h
    cases hcp : cleanPoly p with
    | error e => simp only [hcp] at h; exact Except.noConfusion h
    | ok c0 =>
      cases hmp : mapPolys ps with
      | error e => simp only [hcp, hmp] at h; exact Except.noConfusion h
      | ok cs0 =>
        simp only [hcp, hmp] at h
        obtain rfl : c0 :: cs0 = cs := by simpa using h
        rcases List.mem_cons.mp hc with rfl | hmem
        · exact ⟨p, List.mem_cons_self _ _, hcp⟩
        · obtain ⟨p', hp', hcp'⟩ := ih hmp hmem
          exact ⟨p', List.mem_cons_of_mem _ hp', hcp'⟩

theorem multiPolys_ok_mem {polys : List JsVal} {l : List (List Point)}
    {r : List Point} (h : multiPolys polys = .ok l) (hr : r ∈ l) :
    3 ≤ r.length ∧ r.head? = r.getLast? := by
  rw [multiPolys] at h
  cases hmp : mapPolys polys with
  | error e => simp only [hmp] at h; exact Except.noConfusion h
  | ok cleaned =>
    simp only [hmp] at h
    obtain rfl : cleaned.filterMap id = l := by simpa using h
    obtain ⟨c, hcmem, hcr⟩ := List.mem_filterMap.mp hr
    obtain rfl : c = some r := hcr
    obtain ⟨p, _, hcp⟩ := mapPolys_ok_mem hmp hcmem
    exact cleanPoly_ok_some hcp

theorem boundaryPolygons_ok_mem {v : JsVal} {l : List (List Point)}
    {r : List Point} (h : boundaryPolygons v = .ok l) (hr : r ∈ l) :
    3 ≤ r.length ∧ r.head? = r.getLast? := by
  rw [boundaryPolygons] at h
  cases h1 : jsIndex0 v with
  | error e => simp only [h1] at h; exact Except.noConfusion h
  | ok first =>
    simp only [h1] at h
    cases h2 : jsIndex0 first with
    | error e => simp only [h2] at h; exact Except.noConfusion h
    | ok first0 =>
      simp only [h2] at h
      by_cases harr : first0.isArray
      · rw [if_pos harr] at h
        cases v with
        | arr polys => exact multiPolys_ok_mem h hr
        | num q => exact Except.noConfusion h
        | nan => exact Except.noConfusion h
        | null => exact Except.noConfusion h
        | undefined => exact Except.noConfusion h
        | bool b => exact Except.noConfusion h
        | str s => exact Except.noConfusion h
      · rw [if_neg harr] at h
        exact singlePoly_ok_mem h hr

/-- **C4, counterexample:** `nanLeakPayload` contains a structurally valid
triangle, yet the boundary-rendering path-cleaning returns a ring containing
a NaN coordinate, refuting "no NaN or non-numeric coordinates". -/
theorem C4_counterexample :
    containsStructTriangle nanLeakPayload = true ∧
      ∃ r ∈ renderedRings nanLeakPayload, ∃ p ∈ r, p.1 = none ∧ p.2 = none := by
  decide

/-- **C4 (amended):** for every boundary payload, every ring returned by the
polygon normalization of `showProvinceBoundary`/`showCityBoundary` has at
least 3 points and ends in an identical copy of its first point; however —
contrary to the original claim — the coordinates may be NaN (see
`C4_counterexample`): the point filter coerces with ToNumber (`isNaN`) while
the cleaning coerces with `parseFloat`, and the two disagree on values such
as `null`. -/
theorem C4_rendered_rings_min3_closed (v : JsVal) (r : List Point)
    (hr : r ∈ renderedRings v) : 3 ≤ r.length ∧ r.head? = r.getLast? := by
  rw [renderedRings] at hr
  cases hbp : boundaryPolygons v with
  | error e => simp only [hbp] at hr; simp at hr
  | ok l =>
    simp only [hbp] at hr
    exact boundaryPolygons_ok_mem hbp hr

/-- Witness for `C4_rendered_rings_min3_closed` at a concrete payload. -/
theorem C4_rendered_rings_min3_closed_witness :
    3 ≤ ([((some 0 : JNum), (some 0 : JNum)), (some 0, some 1), (some 1, some 0),
      (some 0, some 0)] : List Point).length ∧
      ([((some 0 : JNum), (some 0 : JNum)), (some 0, some 1), (some 1, some 0),
        (some 0, some 0)] : List Point).head? =
        ([((some 0 : JNum), (some 0 : JNum)), (some 0, some 1), (some 1, some 0),
          (some 0, some 0)] : List Point).getLast? :=
  C4_rendered_rings_min3_closed triPayload _ (by decide)

theorem toPt_encodePt {p : Point} (h1 : p.1.isSome) (h2 : p.2.isSome) :
    toPt (encodePt p) = p := by
  obtain ⟨x, hx⟩ := Option.isSome_iff_exists.mp h1
  obtain ⟨y, hy⟩ := Option.isSome_iff_exists.mp h2
  simp only [encodePt, encodeNum, hx, hy, toPt, jsParseFloat]
  rw [← hx, ← hy]

theorem validPt_encodePt {p : Point} (h1 : p.1.isSome) (h2 : p.2.isSome) :
    validPt (encodePt p) = true := by
  obtain ⟨x, hx⟩ := Option.isSome_iff_exists.mp h1
  obtain ⟨y, hy⟩ := Option.isSome_iff_exists.mp h2
  simp [encodePt, encodeNum, hx, hy, validPt, jsIsNaN, jsToNumber]

theorem closeRing_of_normed {r : List Point} (h : normRing r) : closeRing r = r := by
  obtain ⟨h3, hcl, hfin⟩ := h
  cases r with
  | nil => rfl
  | cons a t =>
    obtain ⟨lst, hl⟩ : ∃ lst, (a :: t).getLast? = some lst :=
      ⟨_, List.getLast?_eq_getLast _ (by simp)⟩
    have ha : a = lst := by
      rw [List.head?_cons, hl] at hcl
      exact Option.some_injective _ hcl
    obtain ⟨ha1, ha2⟩ := hfin a (List.mem_cons_self _ _)
    obtain ⟨x, hx⟩ := Option.isSome_iff_exists.mp ha1
    obtain ⟨y, hy⟩ := Option.isSome_iff_exists.mp ha2
    simp only [closeRing, List.head?_cons, hl]
    rw [if_pos]
    rw [← ha, ptEq, hx, hy]
    simp [jnumEq]

theorem cleanPoly_encodeRing {r : List Point} (h : normRing r) :
    cleanPoly (encodeRing r) = .ok (some r) := by
  have hfilter : (r.map encodePt).filter validPt = r.map encodePt := by
    rw [List.filter_eq_self]
    intro a ha
    obtain ⟨p, hp, rfl⟩ := List.mem_map.mp ha
    exact validPt_encodePt (h.2.2 p hp).1 (h.2.2 p hp).2
  have hmap : ((r.map encodePt).map toPt) = r := by
    rw [List.map_map]
    have : ∀ p ∈ r, (toPt ∘ encodePt) p = id p := fun p hp =>
      toPt_encodePt (h.2.2 p hp).1 (h.2.2 p hp).2
    rw [List.map_congr_left this, List.map_id]
  simp only [encodeRing, cleanPoly, hfilter, hmap]
  rw [if_neg (by have := h.1; omega), closeRing_of_normed h]

theorem mapPolys_encodeRings {rs : List (List Point)} (h : ∀ r ∈ rs, normRing r) :
    mapPolys (rs.map encodeRing) = .ok (rs.map some) := by
  induction rs with
  | nil => rfl
  | cons r rest ih =>
    rw [List.map_cons, mapPolys, cleanPoly_encodeRing (h r (List.mem_cons_self _ _)),
      ih (fun r' hr' => h r' (List.mem_cons_of_mem _ hr')), List.map_cons]

/-- **C7:** the polygon normalization is idempotent: on a ring list that is
already normalized (every ring has ≥ 3 finite numeric 2-element points and is
closed), the boundary path cleaning renders exactly the same ring list. -/
theorem C7_normalize_idempotent (rs : List (List Point))
    (h : ∀ r ∈ rs, normRing r) : renderedRings (encodeRings rs) = rs := by
  cases rs with
  | nil => rfl
  | cons r0 rest =>
    have h0 := h r0 (List.mem_cons_self _ _)
    obtain ⟨p0, t0, hr0⟩ : ∃ p0 t0, r0 = p0 :: t0 := by
      cases r0 with
      | nil => exact absurd h0.1 (by simp)
      | cons a t => exact ⟨a, t, rfl⟩
    have h1 : jsIndex0 (encodeRings (r0 :: rest)) = .ok (encodeRing r0) := rfl
    have h2 : jsIndex0 (encodeRing r0) = .ok (encodePt p0) := by
      rw [hr0]; rfl
    have h3 : (encodePt p0).isArray = true := rfl
    have h4 : boundaryPolygons (encodeRings (r0 :: rest)) =
        multiBranch (encodeRings (r0 :: rest)) := by
      rw [boundaryPolygons, h1]
      simp only [h2, h3, if_pos]
    have h5 : multiBranch (encodeRings (r0 :: rest)) = .ok (r0 :: rest) := by
      show multiPolys ((r0 :: rest).map encodeRing) = .ok (r0 :: rest)
      rw [multiPolys, mapPolys_encodeRings h]
      show Except.ok (((r0 :: rest).map some).filterMap id) = Except.ok (r0 :: rest)
      congr 1
      have : ∀ (xs : List (List Point)), (xs.map some).filterMap id = xs := by
        intro xs
        induction xs with
        | nil => rfl
        | cons x xs ihx => simp [ihx]
      exact this _
    rw [renderedRings, h4, h5]

/-- Witness for `C7_normalize_idempotent` at a concrete normalized ring list. -/
theorem C7_normalize_idempotent_witness :
    renderedRings (encodeRings
      [[((some 0 : JNum), (some 0 : JNum)), (some 0, some 1), (some 1, some 0),
        (some 0, some 0)]]) =
      [[((some 0 : JNum), (some 0 : JNum)), (some 0, some 1), (some 1, some 0),
        (some 0, some 0)]] :=
  C7_normalize_idempotent _ (by decide)

@[simp] theorem setTracker_sel (k : LKind) (v : Option ℕ) (s : MState) :
    (setTracker k v s).sel = s.sel := by cases k <;> rfl

@[simp] theorem setTracker_view (k : LKind) (v : Option ℕ) (s : MState) :
    (setTracker k v s).view = s.view := by cases k <;> rfl

@[simp] theorem setTracker_infoPanel (k : LKind) (v : Option ℕ) (s : MState) :
    (setTracker k v s).infoPanel = s.infoPanel := by cases k <;> rfl

@[simp] theorem setTracker_layers (k : LKind) (v : Option ℕ) (s : MState) :
    (setTracker k v s).layers = s.layers := by cases k <;> rfl

@[simp] theorem setTracker_nextId (k : LKind) (v : Option ℕ) (s : MState) :
    (setTracker k v s).nextId = s.nextId := by cases k <;> rfl

@[simp] theorem setTracker_citySel (k : LKind) (v : Option ℕ) (s : MState) :
    (setTracker k v s).citySel = s.citySel := by cases k <;> rfl

@[simp] theorem setTracker_distSel (k : LKind) (v : Option ℕ) (s : MState) :
    (setTracker k v s).distSel = s.distSel := by cases k <;> rfl

@[simp] theorem setTracker_villSel (k : LKind) (v : Option ℕ) (s : MState) :
    (setTracker k v s).villSel = s.villSel := by cases k <;> rfl

@[simp] theorem removeIfPresent_sel (fld : Option ℕ) (s : MState) :
    (removeIfPresent fld s).sel = s.sel := by cases fld <;> rfl

@[simp] theorem removeIfPresent_view (fld : Option ℕ) (s : MState) :
    (removeIfPresent fld s).view = s.view := by cases fld <;> rfl

@[simp] theorem removeIfPresent_infoPanel (fld : Option ℕ) (s : MState) :
    (removeIfPresent fld s).infoPanel = s.infoPanel := by cases fld <;> rfl

@[simp] theorem removeIfPresent_nextId (fld : Option ℕ) (s : MState) :
    (removeIfPresent fld s).nextId = s.nextId := by cases fld <;> rfl

@[simp] theorem removeIfPresent_citySel (fld : Option ℕ) (s : MState) :
    (removeIfPresent fld s).citySel = s.citySel := by cases fld <;> rfl

@[simp] theorem removeIfPresent_distSel (fld : Option ℕ) (s : MState) :
    (removeIfPresent fld s).distSel = s.distSel := by cases fld <;> rfl

@[simp] theorem removeIfPresent_villSel (fld : Option ℕ) (s : MState) :
    (removeIfPresent fld s).villSel = s.villSel := by cases fld <;> rfl

@[simp] theorem addTracked_sel (k : LKind) (d : LayerData) (s : MState) :
    (addTracked k d s).sel = s.sel := by rw [addTracked, setTracker_sel]

@[simp] theorem addTracked_view (k : LKind) (d : LayerData) (s : MState) :
    (addTracked k d s).view = s.view := by rw [addTracked, setTracker_view]

@[simp] theorem addTracked_infoPanel (k : LKind) (d : LayerData) (s : MState) :
    (addTracked k d s).infoPanel = s.infoPanel := by rw [addTracked, setTracker_infoPanel]

@[simp] theorem addTracked_citySel (k : LKind) (d : LayerData) (s : MState) :
    (addTracked k d s).citySel = s.citySel := by rw [addTracked, setTracker_citySel]

@[simp] theorem addTracked_distSel (k : LKind) (d : LayerData) (s : MState) :
    (addTracked k d s).distSel = s.distSel := by rw [addTracked, setTracker_distSel]

@[simp] theorem addTracked_villSel (k : LKind) (d : LayerData) (s : MState) :
    (addTracked k d s).villSel = s.villSel := by rw [addTracked, setTracker_villSel]

theorem addTracked_layers (k : LKind) (d : LayerData) (s : MState) :
    (addTracked k d s).layers = s.layers ++ [⟨s.nextId, k, d⟩] := by
  rw [addTracked, setTracker_layers]

theorem addTracked_nextId (k : LKind) (d : LayerData) (s : MState) :
    (addTracked k d s).nextId = s.nextId + 1 := by
  rw [addTracked, setTracker_nextId]

@[simp] theorem replaceTracked_sel (k : LKind) (d : LayerData) (s : MState) :
    (replaceTracked k d s).sel = s.sel := by
  rw [replaceTracked, addTracked_sel, removeIfPresent_sel]

@[simp] theorem replaceTracked_view (k : LKind) (d : LayerData) (s : MState) :
    (replaceTracked k d s).view = s.view := by
  rw [replaceTracked, addTracked_view, removeIfPresent_view]

@[simp] theorem replaceTracked_infoPanel (k : LKind) (d : LayerData) (s : MState) :
    (replaceTracked k d s).infoPanel = s.infoPanel := by
  rw [replaceTracked, addTracked_infoPanel, removeIfPresent_infoPanel]

@[simp] theorem replaceTracked_citySel (k : LKind) (d : LayerData) (s : MState) :
    (replaceTracked k d s).citySel = s.citySel := by
  rw [replaceTracked, addTracked_citySel, removeIfPresent_citySel]

@[simp] theorem replaceTracked_distSel (k : LKind) (d : LayerData) (s : MState) :
    (replaceTracked k d s).distSel = s.distSel := by
  rw [replaceTracked, addTracked_distSel, removeIfPresent_distSel]

@[simp] theorem replaceTracked_villSel (k : LKind) (d : LayerData) (s : MState) :
    (replaceTracked k d s).villSel = s.villSel := by
  rw [replaceTracked, addTracked_villSel, removeIfPresent_villSel]

@[simp] theorem clearTracked_sel (k : LKind) (s : MState) :
    (clearTracked k s).sel = s.sel := by
  rw [clearTracked]
  cases kindField s k
  · rfl
  · rw [setTracker_sel]
    rfl

@[simp] theorem clearTracked_view (k : LKind) (s : MState) :
    (clearTracked k s).view = s.view := by
  rw [clearTracked]
  cases kindField s k
  · rfl
  · rw [setTracker_view]
    rfl

@[simp] theorem clearTracked_infoPanel (k : LKind) (s : MState) :
    (clearTracked k s).infoPanel = s.infoPanel := by
  rw [clearTracked]
  cases kindField s k
  · rfl
  · rw [setTracker_infoPanel]
    rfl

@[simp] theorem clearTracked_nextId (k : LKind) (s : MState) :
    (clearTracked k s).nextId = s.nextId := by
  rw [clearTracked]
  cases kindField s k
  · rfl
  · rw [setTracker_nextId]
    rfl

@[simp] theorem renderBoundary_sel (k : LKind) (v : JsVal) (s : MState) :
    (renderBoundary k v s).sel = s.sel := by
  rw [renderBoundary]
  cases boundaryPolygons v with
  | error e => rfl
  | ok l => cases l <;> simp

@[simp] theorem renderBoundary_view (k : LKind) (v : JsVal) (s : MState) :
    (renderBoundary k v s).view = s.view := by
  rw [renderBoundary]
  cases boundaryPolygons v with
  | error e => rfl
  | ok l => cases l <;> simp

@[simp] theorem renderBoundary_infoPanel (k : LKind) (v : JsVal) (s : MState) :
    (renderBoundary k v s).infoPanel = s.infoPanel := by
  rw [renderBoundary]
  cases boundaryPolygons v with
  | error e => rfl
  | ok l => cases l <;> simp

@[simp] theorem renderBoundary_citySel (k : LKind) (v : JsVal) (s : MState) :
    (renderBoundary k v s).citySel = s.citySel := by
  rw [renderBoundary]
  cases boundaryPolygons v with
  | error e => rfl
  | ok l => cases l <;> simp

@[simp] theorem renderBoundary_distSel (k : LKind) (v : JsVal) (s : MState) :
    (renderBoundary k v s).distSel = s.distSel := by
  rw [renderBoundary]
  cases boundaryPolygons v with
  | error e => rfl
  | ok l => cases l <;> simp

@[simp] theorem renderBoundary_villSel (k : LKind) (v : JsVal) (s : MState) :
    (renderBoundary k v s).villSel = s.villSel := by
  rw [renderBoundary]
  cases boundaryPolygons v with
  | error e => rfl
  | ok l => cases l <;> simp

@[simp] theorem showBoundaryF_sel (k : LKind) (path : PathField) (s : MState) :
    (showBoundaryF k path s).sel = s.sel := by
  cases path with
  | absent => rfl
  | strPayload parsed => cases parsed <;> simp [showBoundaryF]
  | native v => by_cases hv : v.isArray <;> simp [showBoundaryF, hv]

@[simp] theorem showBoundaryF_view (k : LKind) (path : PathField) (s : MState) :
    (showBoundaryF k path s).view = s.view := by
  cases path with
  | absent => rfl
  | strPayload parsed => cases parsed <;> simp [showBoundaryF]
  | native v => by_cases hv : v.isArray <;> simp [showBoundaryF, hv]

@[simp] theorem showBoundaryF_infoPanel (k : LKind) (path : PathField) (s : MState) :
    (showBoundaryF k path s).infoPanel = s.infoPanel := by
  cases path with
  | absent => rfl
  | strPayload parsed => cases parsed <;> simp [showBoundaryF]
  | native v => by_cases hv : v.isArray <;> simp [showBoundaryF, hv]

@[simp] theorem showBoundaryF_citySel (k : LKind) (path : PathField) (s : MState) :
    (showBoundaryF k path s).citySel = s.citySel := by
  cases path with
  | absent => rfl
  | strPayload parsed => cases parsed <;> simp [showBoundaryF]
  | native v => by_cases hv : v.isArray <;> simp [showBoundaryF, hv]

@[simp] theorem showBoundaryF_distSel (k : LKind) (path : PathField) (s : MState) :
    (showBoundaryF k path s).distSel = s.distSel := by
  cases path with
  | absent => rfl
  | strPayload parsed => cases parsed <;> simp [showBoundaryF]
  | native v => by_cases hv : v.isArray <;> simp [showBoundaryF, hv]

@[simp] theorem showBoundaryF_villSel (k : LKind) (path : PathField) (s : MState) :
    (showBoundaryF k path s).villSel = s.villSel := by
  cases path with
  | absent => rfl
  | strPayload parsed => cases parsed <;> simp [showBoundaryF]
  | native v => by_cases hv : v.isArray <;> simp [showBoundaryF, hv]

theorem kindField_setTracker (k k' : LKind) (v : Option ℕ) (s : MState) :
    kindField (setTracker k v s) k' = if k' = k then v else kindField s k' := by
  cases k <;> cases k' <;> simp [setTracker, kindField]

theorem kindField_removeLayerId (id : ℕ) (s : MState) (k : LKind) :
    kindField (removeLayerId id s) k = kindField s k := by
  cases k <;> rfl

theorem kindField_removeIfPresent (fld : Option ℕ) (s : MState) (k : LKind) :
    kindField (removeIfPresent fld s) k = kindField s k := by
  cases fld
  · rfl
  · exact kindField_removeLayerId _ _ _

/-- Invariant transfer along a state that agrees on layers, `nextId` and the
six layer globals (used for all pure record updates). -/
theorem inv_of_eq_fields {s t : MState} (h : Inv s)
    (hl : t.layers = s.layers) (hn : t.nextId = s.nextId)
    (h1 : t.curProv = s.curProv) (h2 : t.curCity = s.curCity)
    (h3 : t.curDist = s.curDist) (h4 : t.curVill = s.curVill)
    (h5 : t.provBnds = s.provBnds) (h6 : t.cityBnds = s.cityBnds) : Inv t := by
  have hk : ∀ k, kindField t k = kindField s k := by
    intro k
    cases k <;> simp [kindField, h1, h2, h3, h4, h5, h6]
  refine ⟨?_, ?_, ?_⟩
  · intro l hmem
    rw [hk]
    exact h.tracked l (hl ▸ hmem)
  · intro l hmem
    rw [hn]
    exact h.fresh l (hl ▸ hmem)
  · rw [hl]
    exact h.nodup

theorem removeLayerId_inv {s : MState} (h : Inv s) (id : ℕ) :
    Inv (removeLayerId id s) := by
  refine ⟨?_, ?_, ?_⟩
  · intro l hmem
    rw [kindField_removeLayerId]
    exact h.tracked l (List.mem_of_mem_filter hmem)
  · intro l hmem
    exact h.fresh l (List.mem_of_mem_filter hmem)
  · exact List.Nodup.sublist ((List.filter_sublist _).map Layer.lid) h.nodup

theorem removeIfPresent_inv {s : MState} (h : Inv s) (fld : Option ℕ) :
    Inv (removeIfPresent fld s) := by
  cases fld
  · exact h
  · exact removeLayerId_inv h _

/-- After `if (x) { map.removeLayer(x) }` on the global owning kind `k`, no
layer of kind `k` is live. -/
theorem removeCurrent_no_kind {s : MState} (h : Inv s) (k : LKind) :
    ∀ l ∈ (removeIfPresent (kindField s k) s).layers, l.kind ≠ k := by
  intro l hmem hk
  cases hf : kindField s k with
  | none =>
    rw [hf] at hmem
    have := h.tracked l hmem
    rw [hk, hf] at this
    exact Option.noConfusion this
  | some id =>
    rw [hf] at hmem
    have hl := List.mem_of_mem_filter hmem
    have hne := List.of_mem_filter hmem
    have := h.tracked l hl
    rw [hk, hf] at this
    obtain rfl : id = l.lid := Option.some_injective _ this
    simp at hne

theorem addTracked_inv {s : MState} (h : Inv s) {k : LKind} (d : LayerData)
    (hno : ∀ l ∈ s.layers, l.kind ≠ k) : Inv (addTracked k d s) := by
  refine ⟨?_, ?_, ?_⟩
  · intro l hmem
    rw [addTracked_layers] at hmem
    rcases List.mem_append.mp hmem with hold | hnew
    · have hk := h.tracked l hold
      rw [addTracked, kindField_setTracker, if_neg (fun he => hno l hold he)]
      exact hk
    · obtain rfl : l = ⟨s.nextId, k, d⟩ := List.mem_singleton.mp hnew
      rw [addTracked, kindField_setTracker, if_pos rfl]
  · intro l hmem
    rw [addTracked_layers] at hmem
    rw [addTracked_nextId]
    rcases List.mem_append.mp hmem with hold | hnew
    · exact Nat.lt_succ_of_lt (h.fresh l hold)
    · obtain rfl : l = ⟨s.nextId, k, d⟩ := List.mem_singleton.mp hnew
      exact Nat.lt_succ_self _
  · rw [addTracked_layers, List.map_append]
    rw [List.nodup_append]
    refine ⟨h.nodup, List.nodup_singleton _, ?_⟩
    intro a ha hb
    simp only [List.map_cons, List.map_nil, List.mem_singleton] at hb
    subst hb
    obtain ⟨l, hl, hla⟩ := List.mem_map.mp ha
    exact absurd hla (Nat.ne_of_lt (h.fresh l hl))

theorem replaceTracked_inv {s : MState} (h : Inv s) (k : LKind) (d : LayerData) :
    Inv (replaceTracked k d s) :=
  addTracked_inv (removeIfPresent_inv h _) d (removeCurrent_no_kind h k)

theorem clearTracked_inv {s : MState} (h : Inv s) (k : LKind) :
    Inv (clearTracked k s) := by
  cases hf : kindField s k with
  | none =>
    rw [clearTracked, hf]
    exact h
  | some id =>
    rw [clearTracked, hf]
    show Inv (setTracker k none (removeLayerId id s))
    have hno : ∀ l ∈ (removeLayerId id s).layers, l.kind ≠ k := by
      have := removeCurrent_no_kind h k
      rw [hf] at this
      exact this
    have hinv := removeLayerId_inv h id
    refine ⟨?_, ?_, ?_⟩
    · intro l hmem
      rw [setTracker_layers] at hmem
      rw [kindField_setTracker, if_neg (hno l hmem)]
      exact hinv.tracked l hmem
    · intro l hmem
      rw [setTracker_layers] at hmem
      rw [setTracker_nextId]
      exact hinv.fresh l hmem
    · rw [setTracker_layers]
      exact hinv.nodup

theorem renderBoundary_inv {s1 : MState} (h : Inv s1) (k : LKind) (v : JsVal)
    (hno : ∀ l ∈ s1.layers, l.kind ≠ k) :
    Inv (renderBoundary k v s1) := by
  rw [renderBoundary]
  cases boundaryPolygons v with
  | error e => exact h
  | ok l =>
    cases l with
    | nil => exact h
    | cons r rs => exact addTracked_inv h _ hno

theorem showBoundaryF_inv {s : MState} (h : Inv s) (k : LKind) (path : PathField) :
    Inv (showBoundaryF k path s) := by
  cases path with
  | absent => exact h
  | strPayload parsed =>
    cases parsed with
    | none => exact removeIfPresent_inv h _
    | some v =>
      exact renderBoundary_inv (removeIfPresent_inv h _) k v
        (removeCurrent_no_kind h k)
  | native v =>
    by_cases hv : v.isArray
    · simp only [showBoundaryF, hv, if_true]
      exact renderBoundary_inv (removeIfPresent_inv h _) k v
        (removeCurrent_no_kind h k)
    · simp only [showBoundaryF, hv, if_false]
      exact removeIfPresent_inv h _

theorem resetMapF_inv {s : MState} (h : Inv s) : Inv (resetMapF s).1 := by
  rw [resetMapF]
  by_cases hm : s.mapInit = false
  · rw [if_pos hm]
    exact h
  · rw [if_neg hm]
    show Inv (clearTracked .villMarker (clearTracked .distMarker
      (clearTracked .cityMarker (clearTracked .provMarker
        {s with view := (defaultCoordinate, defaultZoom)}))))
    have h1 : Inv {s with view := (defaultCoordinate, defaultZoom)} :=
      inv_of_eq_fields h rfl rfl rfl rfl rfl rfl rfl rfl
    exact clearTracked_inv (clearTracked_inv (clearTracked_inv
      (clearTracked_inv h1 _) _) _) _

theorem selectProvinceIssue_inv {s : MState} (h : Inv s) (c : Option Code) :
    Inv (selectProvinceIssue c s).1 := by
  cases c with
  | none =>
    rw [selectProvinceIssue]
    have hr := resetMapF_inv h
    cases hrm : resetMapF s with
    | mk s1 err =>
      rw [hrm] at hr
      cases err with
      | none => exact inv_of_eq_fields hr rfl rfl rfl rfl rfl rfl rfl rfl
      | some e => exact hr
  | some c => exact inv_of_eq_fields h rfl rfl rfl rfl rfl rfl rfl rfl

theorem applyProvinceGeo_inv {s : MState} (h : Inv s) (o : FetchOutcome) :
    Inv (applyProvinceGeo o s) := by
  cases o with
  | rejected => exact inv_of_eq_fields h rfl rfl rfl rfl rfl rfl rfl rfl
  | resolved success data =>
    cases success with
    | false => cases data <;> exact h
    | true =>
      cases data with
      | none => exact h
      | some g =>
        rw [applyProvinceGeo]
        cases jsParseFloat g.lat with
        | none => cases jsParseFloat g.lng <;> exact h
        | some la =>
          cases jsParseFloat g.lng with
          | none => exact h
          | some ln =>
            show Inv {showBoundaryF .provBoundary g.path
              {replaceTracked .provMarker (.markerAt (some la, some ln) g.info) s with
                view := ((some la, some ln), 8),
                infoPanel := ⟨true, .details g.info⟩} with
              citySel := ⟨.loading, true⟩}
            have h2 : Inv {replaceTracked .provMarker
                (.markerAt (some la, some ln) g.info) s with
                view := ((some la, some ln), 8),
                infoPanel := ⟨true, .details g.info⟩} :=
              inv_of_eq_fields (replaceTracked_inv h _ _) rfl rfl rfl rfl rfl rfl rfl rfl
            have h3 := showBoundaryF_inv h2 .provBoundary g.path
            exact inv_of_eq_fields h3 rfl rfl rfl rfl rfl rfl rfl rfl

theorem applyCityGeo_inv {s : MState} (h : Inv s) (o : FetchOutcome) :
    Inv (applyCityGeo o s) := by
  cases o with
  | rejected => exact h
  | resolved success data =>
    cases success with
    | false => cases data <;> exact h
    | true =>
      cases data with
      | none => exact h
      | some g =>
        rw [applyCityGeo]
        cases jsParseFloat g.lat with
        | none => cases jsParseFloat g.lng <;> exact h
        | some la =>
          cases jsParseFloat g.lng with
          | none => exact h
          | some ln =>
            show Inv {showBoundaryF .cityBoundary g.path
              {replaceTracked .cityMarker (.markerAt (some la, some ln) g.info) s with
                view := ((some la, some ln), 10)} with
              distSel := ⟨.loading, true⟩}
            have h2 : Inv {replaceTracked .cityMarker
                (.markerAt (some la, some ln) g.info) s with
                view := ((some la, some ln), 10)} :=
              inv_of_eq_fields (replaceTracked_inv h _ _) rfl rfl rfl rfl rfl rfl rfl rfl
            have h3 := showBoundaryF_inv h2 .cityBoundary g.path
            exact inv_of_eq_fields h3 rfl rfl rfl rfl rfl rfl rfl rfl

theorem applyCities_inv {s : MState} (h : Inv s) (o : ListOutcome) :
    Inv (applyCities o s) := by
  cases o with
  | rejected => exact inv_of_eq_fields h rfl rfl rfl rfl rfl rfl rfl rfl
  | resolved success data =>
    cases success with
    | false => cases data <;> exact h
    | true =>
      cases data with
      | none => exact h
      | some xs => exact inv_of_eq_fields h rfl rfl rfl rfl rfl rfl rfl rfl

theorem applyDistricts_inv {s : MState} (h : Inv s) (o : ListOutcome) :
    Inv (applyDistricts o s) := by
  cases o with
  | rejected => exact inv_of_eq_fields h rfl rfl rfl rfl rfl rfl rfl rfl
  | resolved success data =>
    cases success with
    | false => cases data <;> exact h
    | true =>
      cases data with
      | none => exact h
      | some xs => exact inv_of_eq_fields h rfl rfl rfl rfl rfl rfl rfl rfl

theorem applyVillages_inv {s : MState} (h : Inv s) (o : ListOutcome) :
    Inv (applyVillages o s) := by
  cases o with
  | rejected => exact inv_of_eq_fields h rfl rfl rfl rfl rfl rfl rfl rfl
  | resolved success data =>
    cases success with
    | false => cases data <;> exact h
    | true =>
      cases data with
      | none => exact h
      | some xs => exact inv_of_eq_fields h rfl rfl rfl rfl rfl rfl rfl rfl

theorem selectCityIssue_inv {s : MState} (h : Inv s) (c : Option Code) :
    Inv (selectCityIssue c s) := by
  cases c with
  | none =>
    exact inv_of_eq_fields (clearTracked_inv h .cityMarker)
      rfl rfl rfl rfl rfl rfl rfl rfl
  | some c => exact inv_of_eq_fields h rfl rfl rfl rfl rfl rfl rfl rfl

theorem selectDistrictIssue_inv {s : MState} (h : Inv s) (c : Option Code) :
    Inv (selectDistrictIssue c s) := by
  cases c with
  | none =>
    exact inv_of_eq_fields (clearTracked_inv h .distMarker)
      rfl rfl rfl rfl rfl rfl rfl rfl
  | some c => exact inv_of_eq_fields h rfl rfl rfl rfl rfl rfl rfl rfl

theorem selectVillageIssue_inv {s : MState} (h : Inv s) (c : Option Code) :
    Inv (selectVillageIssue c s) := by
  cases c with
  | none =>
    exact inv_of_eq_fields (clearTracked_inv h .villMarker)
      rfl rfl rfl rfl rfl rfl rfl rfl
  | some c => exact inv_of_eq_fields h rfl rfl rfl rfl rfl rfl rfl rfl

theorem applyDistrictDetail_inv {s : MState} (h : Inv s) (o : DetailOutcome) :
    Inv (applyDistrictDetail o s) := by
  cases o with
  | rejected => exact h
  | resolved success data =>
    cases success with
    | false => cases data <;> exact h
    | true =>
      cases data with
      | none => exact h
      | some dd =>
        rw [applyDistrictDetail]
        cases s.sel.city <;> exact h

theorem applyVillageDetail_inv {s : MState} (h : Inv s) (o : DetailOutcome) :
    Inv (applyVillageDetail o s) := by
  cases o with
  | rejected => exact h
  | resolved success data =>
    cases success with
    | false => cases data <;> exact h
    | true =>
      cases data with
      | none => exact h
      | some dd =>
        rw [applyVillageDetail]
        cases s.sel.city <;> exact h

theorem applyDistrictCityGeo_inv {s : MState} (h : Inv s) (dd : String)
    (o : FetchOutcome) (r1 r2 : ℚ) : Inv (applyDistrictCityGeo dd o r1 r2 s) := by
  cases o with
  | rejected => exact h
  | resolved success data =>
    cases success with
    | false => cases data <;> exact h
    | true =>
      cases data with
      | none => exact h
      | some cg =>
        exact inv_of_eq_fields (replaceTracked_inv h _ _)
          rfl rfl rfl rfl rfl rfl rfl rfl

theorem applyVillageCityGeo_inv {s : MState} (h : Inv s) (dd : String)
    (o : FetchOutcome) (r1 r2 : ℚ) : Inv (applyVillageCityGeo dd o r1 r2 s) := by
  cases o with
  | rejected => exact h
  | resolved success data =>
    cases success with
    | false => cases data <;> exact h
    | true =>
      cases data with
      | none => exact h
      | some cg =>
        exact inv_of_eq_fields (replaceTracked_inv h _ _)
          rfl rfl rfl rfl rfl rfl rfl rfl

theorem initState_inv : Inv initState := by
  refine ⟨?_, ?_, ?_⟩
  · intro l hmem
    exact absurd hmem (List.not_mem_nil _)
  · intro l hmem
    exact absurd hmem (List.not_mem_nil _)
  · exact List.nodup_nil

/-- Every reachable state satisfies the overlay invariant. -/
theorem reach_inv {s : MState} (h : Reach s) : Inv s := by
  induction h with
  | init => exact initState_inv
  | step e hr ih =>
    cases e with
    | selProvince c => exact selectProvinceIssue_inv ih c
    | provGeo c o => exact applyProvinceGeo_inv ih o
    | cities c o => exact applyCities_inv ih o
    | selCity c => exact selectCityIssue_inv ih c
    | cityGeo c o => exact applyCityGeo_inv ih o
    | districts c o => exact applyDistricts_inv ih o
    | selDistrict c => exact selectDistrictIssue_inv ih c
    | distDetail c o => exact applyDistrictDetail_inv ih o
    | distCityGeo dd o r1 r2 => exact applyDistrictCityGeo_inv ih dd o r1 r2
    | villages c o => exact applyVillages_inv ih o
    | selVillage c => exact selectVillageIssue_inv ih c
    | villDetail c o => exact applyVillageDetail_inv ih o
    | villCityGeo dd o r1 r2 => exact applyVillageCityGeo_inv ih dd o r1 r2
    | resetClick => exact resetMapF_inv ih

theorem inv_at_most_one {s : MState} (h : Inv s) (k : LKind) :
    (s.layers.filter (fun l => l.kind == k)).length ≤ 1 := by
  rcases hf : s.layers.filter (fun l => l.kind == k) with _ | ⟨a, _ | ⟨b, t⟩⟩
  · rw [hf]
    simp
  · rw [hf]
    simp
  · exfalso
    have hamem : a ∈ s.layers.filter (fun l => l.kind == k) := by
      rw [hf]
      exact List.mem_cons_self _ _
    have hbmem : b ∈ s.layers.filter (fun l => l.kind == k) := by
      rw [hf]
      exact List.mem_cons_of_mem _ (List.mem_cons_self _ _)
    have hak : a.kind = k := by simpa using List.of_mem_filter hamem
    have hbk : b.kind = k := by simpa using List.of_mem_filter hbmem
    have ha := h.tracked a (List.mem_of_mem_filter hamem)
    have hb := h.tracked b (List.mem_of_mem_filter hbmem)
    rw [hak] at ha
    rw [hbk] at hb
    have hlid : a.lid = b.lid := by
      have := ha.symm.trans hb
      exact Option.some_injective _ this
    have hnd : ((s.layers.filter (fun l => l.kind == k)).map Layer.lid).Nodup :=
      List.Nodup.sublist ((List.filter_sublist _).map Layer.lid) h.nodup
    rw [hf] at hnd
    simp only [List.map_cons, List.nodup_cons, List.mem_cons] at hnd
    exact hnd.1 (Or.inl hlid)

/-- **C8:** in every reachable state there is at most one live overlay of
each kind — one marker and one boundary layer per administrative level: every
placement removes the level's previous overlay of that kind before adding the
new one (and the clearing paths remove without re-adding), so calling a
placement twice for the same level leaves exactly one overlay. -/
theorem C8_at_most_one_overlay (s : MState) (h : Reach s) (k : LKind) :
    (s.layers.filter (fun l => l.kind == k)).length ≤ 1 :=
  inv_at_most_one (reach_inv h) k

/-- Witness for `C8_at_most_one_overlay`: after issuing province "31" and
applying its geo response twice, at most one province marker is live. -/
theorem C8_at_most_one_overlay_witness :
    ((stepEvent (.provGeo "31" (.resolved true (some geoA)))
        (stepEvent (.provGeo "31" (.resolved true (some geoA)))
          (stepEvent (.selProvince (some "31")) initState))).layers.filter
      (fun l => l.kind == LKind.provMarker)).length ≤ 1 :=
  C8_at_most_one_overlay _
    (Reach.step _ (Reach.step _ (Reach.step _ Reach.init))) .provMarker

/-- **C2 (code bug):** `resetMap` never completes normally, in any state:
before initialization `map.setView` throws a `TypeError` (line 729); after
initialization the read of the undeclared identifier `provinceBoundaryLayer`
at line 750 throws a `ReferenceError`.  Either way the `selectedLocation`
reset at lines 759–765 (and the selector/info-panel resets) are never
reached: the selection state is unchanged when the exception escapes. -/
theorem C2_resetMap_always_throws (s : MState) :
    (resetMapF s).2.isSome = true ∧ (resetMapF s).1.sel = s.sel := by
  rw [resetMapF]
  by_cases hm : s.mapInit = false
  · rw [if_pos hm]
    exact ⟨rfl, rfl⟩
  · rw [if_neg hm]
    refine ⟨rfl, ?_⟩
    show (clearTracked .villMarker (clearTracked .distMarker (clearTracked
      .cityMarker (clearTracked .provMarker
        {s with view := (defaultCoordinate, defaultZoom)})))).sel = s.sel
    rw [clearTracked_sel, clearTracked_sel, clearTracked_sel, clearTracked_sel]

/-- **C3 (code bug):** selecting the empty province code does *not* unset the
four selection fields: `selectProvince('')` calls `resetMap`, which throws
before `selectedLocation` is reset (undeclared `provinceBoundaryLayer`, line
750), and the exception propagates out of `selectProvince` (the falsy branch
is outside its `try`), so the previous province selection survives the call. -/
theorem C3_selectProvince_none_keeps_selection :
    (selectProvinceIssue none selectedProvinceState).1.sel.province = some "31" ∧
      (selectProvinceIssue none selectedProvinceState).2.isSome = true := by
  exact ⟨rfl, rfl⟩

/-- **C1, counterexample:** with SelectProvince("31") issued, then
SelectProvince("32") issued before "31"'s fetch resolves, applying "31"'s
late response after "32"'s state was rendered *changes* the visible state:
the viewport recenters from B's coordinate to A's and the info panel switches
to A's data.  B's state does not persist; the stale response is applied, not
discarded. -/
theorem C1_counterexample :
    staleS4.view ≠ staleS3.view ∧ staleS4.infoPanel ≠ staleS3.infoPanel := by
  have h4 : staleS4.view = ((some (-6 : ℚ), some (107 : ℚ)), 8) := rfl
  have h3 : staleS3.view = ((some (-7 : ℚ), some (113 : ℚ)), 8) := rfl
  have h4i : staleS4.infoPanel = ⟨true, .details "DKI Jakarta"⟩ := rfl
  have h3i : staleS3.infoPanel = ⟨true, .details "Jawa Timur"⟩ := rfl
  constructor
  · rw [h4, h3]
    simp only [ne_eq, Prod.mk.injEq, Option.some.injEq]
    norm_num
  · rw [h4i, h3i]
    simp only [ne_eq, InfoPanel.mk.injEq, InfoContent.details.injEq]
    decide

/-- **C1 (amended):** there is no staleness guard: a successful late
province-geo response with parseable coordinates is applied whenever it
arrives — the viewport recenters on *its* coordinate at zoom 8 and the info
panel is overwritten with *its* data, whatever province is currently
selected — while `selectedLocation` (written synchronously at issue time and
untouched by any continuation) keeps the newer selection.  Visible state thus
follows arrival order, not selection order. -/
theorem C1_late_response_applied (s : MState) (c : Code) (g : GeoData)
    (la ln : ℚ) (hla : jsParseFloat g.lat = some la)
    (hln : jsParseFloat g.lng = some ln) :
    (stepEvent (.provGeo c (.resolved true (some g))) s).view
        = ((some la, some ln), 8) ∧
      (stepEvent (.provGeo c (.resolved true (some g))) s).sel = s.sel ∧
      (stepEvent (.provGeo c (.resolved true (some g))) s).infoPanel
        = ⟨true, .details g.info⟩ := by
  have hstep : stepEvent (.provGeo c (.resolved true (some g))) s
      = applyProvinceGeo (.resolved true (some g)) s := rfl
  rw [hstep, applyProvinceGeo, hla, hln]
  refine ⟨?_, ?_, ?_⟩ <;> simp

/-- Witness for `C1_late_response_applied` at the concrete stale trace. -/
theorem C1_late_response_applied_witness :
    (stepEvent (.provGeo "31" (.resolved true (some geoA))) staleS3).view
        = ((some (-6 : ℚ), some (107 : ℚ)), 8) ∧
      (stepEvent (.provGeo "31" (.resolved true (some geoA))) staleS3).sel
        = staleS3.sel ∧
      (stepEvent (.provGeo "31" (.resolved true (some geoA))) staleS3).infoPanel
        = ⟨true, .details "DKI Jakarta"⟩ :=
  C1_late_response_applied staleS3 "31" geoA (-6) (107) rfl rfl

/-- **C5, counterexample:** after the hierarchy-order sequence
setProvince("31"); setCity(none); setDistrict("317101") the district field is
set while the city field is unset: `selectDistrict` stores its code without
checking that a city is selected, so the ancestor invariant fails. -/
theorem C5_counterexample : ¬ ancestorInv brokenHierarchyState.sel := by
  decide

/-- **C5 (amended):** for hierarchy-order call sequences whose codes are all
non-empty, the SelectionState satisfies the ancestor invariant after each of
the four calls, and each call unsets every strictly deeper level's field.
The original claim with arbitrary codes fails (see the counterexample):
clearing an intermediate level and then selecting a deeper one leaves a child
set under an unset parent, because selectDistrict/selectVillage never check
their parent. -/
theorem C5_hierarchy_nonempty_invariant (s : MState) (p c d v : Code) :
    ancestorInv (stepEvent (.selProvince (some p)) s).sel ∧
    (stepEvent (.selProvince (some p)) s).sel.city = none ∧
    (stepEvent (.selProvince (some p)) s).sel.district = none ∧
    (stepEvent (.selProvince (some p)) s).sel.village = none ∧
    ancestorInv (stepEvent (.selCity (some c))
      (stepEvent (.selProvince (some p)) s)).sel ∧
    (stepEvent (.selCity (some c))
      (stepEvent (.selProvince (some p)) s)).sel.district = none ∧
    (stepEvent (.selCity (some c))
      (stepEvent (.selProvince (some p)) s)).sel.village = none ∧
    ancestorInv (stepEvent (.selDistrict (some d)) (stepEvent (.selCity (some c))
      (stepEvent (.selProvince (some p)) s))).sel ∧
    (stepEvent (.selDistrict (some d)) (stepEvent (.selCity (some c))
      (stepEvent (.selProvince (some p)) s))).sel.village = none ∧
    ancestorInv (stepEvent (.selVillage (some v)) (stepEvent (.selDistrict (some d))
      (stepEvent (.selCity (some c)) (stepEvent (.selProvince (some p)) s)))).sel := by
  refine ⟨⟨fun h => Bool.noConfusion h, fun h => Bool.noConfusion h,
      fun h => Bool.noConfusion h⟩,
    rfl, rfl, rfl,
    ⟨fun _ => rfl, fun h => Bool.noConfusion h, fun h => Bool.noConfusion h⟩,
    rfl, rfl,
    ⟨fun _ => rfl, fun _ => rfl, fun h => Bool.noConfusion h⟩,
    rfl,
    ⟨fun _ => rfl, fun _ => rfl, fun _ => rfl⟩⟩

/-- **C9:** the viewport zoom strictly increases with administrative depth:
a successful province selection pans to its coordinate at zoom 8, a city at
zoom 10, a district at zoom 12 and a village at zoom 14, each centered on the
selected (or, for district/village, approximated) coordinate. -/
theorem C9_zoom_levels (s : MState) (c : Code) (dd : String) (g cg : GeoData)
    (la ln cla cln r1 r2 : ℚ)
    (hla : jsParseFloat g.lat = some la) (hln : jsParseFloat g.lng = some ln)
    (hcla : jsParseFloat cg.lat = some cla) (hcln : jsParseFloat cg.lng = some cln) :
    (stepEvent (.provGeo c (.resolved true (some g))) s).view
        = ((some la, some ln), 8) ∧
      (stepEvent (.cityGeo c (.resolved true (some g))) s).view
        = ((some la, some ln), 10) ∧
      (stepEvent (.distCityGeo dd (.resolved true (some cg)) r1 r2) s).view
        = ((some (cla + (r1 - 1/2) * (1/10)), some (cln + (r2 - 1/2) * (1/10))), 12) ∧
      (stepEvent (.villCityGeo dd (.resolved true (some cg)) r1 r2) s).view
        = ((some (cla + (r1 - 1/2) * (1/5)), some (cln + (r2 - 1/2) * (1/5))), 14) ∧
      (8 : ℤ) < 10 ∧ (10 : ℤ) < 12 ∧ (12 : ℤ) < 14 := by
  refine ⟨?_, ?_, ?_, ?_, by norm_num, by norm_num, by norm_num⟩
  · show (applyProvinceGeo (.resolved true (some g)) s).view = _
    rw [applyProvinceGeo, hla, hln]
    simp
  · show (applyCityGeo (.resolved true (some g)) s).view = _
    rw [applyCityGeo, hla, hln]
    simp
  · show (applyDistrictCityGeo dd (.resolved true (some cg)) r1 r2 s).view = _
    rw [applyDistrictCityGeo, hcla, hcln]
    simp
  · show (applyVillageCityGeo dd (.resolved true (some cg)) r1 r2 s).view = _
    rw [applyVillageCityGeo, hcla, hcln]
    simp

/-- Witness for `C9_zoom_levels` at concrete payloads (offsets drawn at 1/2). -/
theorem C9_zoom_levels_witness :
    (stepEvent (.provGeo "31" (.resolved true (some geoA))) initState).view
        = ((some (-6 : ℚ), some (107 : ℚ)), 8) ∧
      (stepEvent (.cityGeo "31" (.resolved true (some geoA))) initState).view
        = ((some (-6 : ℚ), some (107 : ℚ)), 10) ∧
      (stepEvent (.distCityGeo "Kec. X" (.resolved true (some geoB)) (1/2) (1/2))
          initState).view
        = ((some ((-7 : ℚ) + ((1/2 : ℚ) - 1/2) * (1/10)),
            some ((113 : ℚ) + ((1/2 : ℚ) - 1/2) * (1/10))), 12) ∧
      (stepEvent (.villCityGeo "Kec. X" (.resolved true (some geoB)) (1/2) (1/2))
          initState).view
        = ((some ((-7 : ℚ) + ((1/2 : ℚ) - 1/2) * (1/5)),
            some ((113 : ℚ) + ((1/2 : ℚ) - 1/2) * (1/5))), 14) ∧
      (8 : ℤ) < 10 ∧ (10 : ℤ) < 12 ∧ (12 : ℤ) < 14 :=
  C9_zoom_levels initState "31" "Kec. X" geoA geoB (-6) (107) (-7) (113)
    (1/2) (1/2) rfl rfl rfl rfl

theorem applyDistrictDetail_id (o : DetailOutcome) (t : MState) :
    applyDistrictDetail o t = t := by
  cases o with
  | rejected => rfl
  | resolved success data =>
    cases success with
    | false => cases data <;> rfl
    | true =>
      cases data with
      | none => rfl
      | some dd =>
        rw [applyDistrictDetail]
        cases t.sel.city <;> rfl

theorem applyVillageDetail_id (o : DetailOutcome) (t : MState) :
    applyVillageDetail o t = t := by
  cases o with
  | rejected => rfl
  | resolved success data =>
    cases success with
    | false => cases data <;> rfl
    | true =>
      cases data with
      | none => rfl
      | some dd =>
        rw [applyVillageDetail]
        cases t.sel.city <;> rfl

/-- **C10 (implicit):** when no city is selected at the time the
district/village detail fetch succeeds, the continuation does nothing — no
marker, no viewport change, no child-selector repopulation — so the whole
call changes only the district (resp. village) and deeper selection fields;
and when a city is selected, the approximate marker the inner city-geo
continuation places is offset from the owning city's coordinate by at most
0.05 degrees (district) resp. 0.1 degrees (village) per axis. -/
theorem C10_no_city_frame_and_offset (s : MState) (c : Code) (o : DetailOutcome)
    (dd : String) (cg : GeoData) (cla cln r1 r2 : ℚ)
    (hcity : s.sel.city = none)
    (hr1 : 0 ≤ r1) (hr1' : r1 < 1) (hr2 : 0 ≤ r2) (hr2' : r2 < 1)
    (hcla : jsParseFloat cg.lat = some cla) (hcln : jsParseFloat cg.lng = some cln) :
    stepEvent (.distDetail c o) (stepEvent (.selDistrict (some c)) s)
        = stepEvent (.selDistrict (some c)) s ∧
      stepEvent (.selDistrict (some c)) s
        = {s with sel := {s.sel with district := some c, village := none}} ∧
      stepEvent (.villDetail c o) (stepEvent (.selVillage (some c)) s)
        = stepEvent (.selVillage (some c)) s ∧
      stepEvent (.selVillage (some c)) s
        = {s with sel := {s.sel with village := some c}} ∧
      (⟨s.nextId, .distMarker, .markerAt
          (some (cla + (r1 - 1/2) * (1/10)), some (cln + (r2 - 1/2) * (1/10))) dd⟩ : Layer)
        ∈ (stepEvent (.distCityGeo dd (.resolved true (some cg)) r1 r2) s).layers ∧
      |cla + (r1 - 1/2) * (1/10) - cla| ≤ 1/20 ∧
      |cln + (r2 - 1/2) * (1/10) - cln| ≤ 1/20 ∧
      (⟨s.nextId, .villMarker, .markerAt
          (some (cla + (r1 - 1/2) * (1/5)), some (cln + (r2 - 1/2) * (1/5))) dd⟩ : Layer)
        ∈ (stepEvent (.villCityGeo dd (.resolved true (some cg)) r1 r2) s).layers ∧
      |cla + (r1 - 1/2) * (1/5) - cla| ≤ 1/10 ∧
      |cln + (r2 - 1/2) * (1/5) - cln| ≤ 1/10 := by
  refine ⟨applyDistrictDetail_id o _, rfl, applyVillageDetail_id o _, rfl,
    ?_, ?_, ?_, ?_, ?_, ?_⟩
  · show _ ∈ (applyDistrictCityGeo dd (.resolved true (some cg)) r1 r2 s).layers
    rw [applyDistrictCityGeo, hcla, hcln]
    simp only [Option.map_some']
    show _ ∈ (replaceTracked .distMarker (.markerAt
      (some (cla + (r1 - 1/2) * (1/10)), some (cln + (r2 - 1/2) * (1/10))) dd) s).layers
    rw [replaceTracked, addTracked_layers, removeIfPresent_nextId]
    exact List.mem_append_right _ (List.mem_singleton_self _)
  · have he : cla + (r1 - 1/2) * (1/10) - cla = (r1 - 1/2) * (1/10) := by ring
    rw [he, abs_le]
    constructor <;> nlinarith
  · have he : cln + (r2 - 1/2) * (1/10) - cln = (r2 - 1/2) * (1/10) := by ring
    rw [he, abs_le]
    constructor <;> nlinarith
  · show _ ∈ (applyVillageCityGeo dd (.resolved true (some cg)) r1 r2 s).layers
    rw [applyVillageCityGeo, hcla, hcln]
    simp only [Option.map_some']
    show _ ∈ (replaceTracked .villMarker (.markerAt
      (some (cla + (r1 - 1/2) * (1/5)), some (cln + (r2 - 1/2) * (1/5))) dd) s).layers
    rw [replaceTracked, addTracked_layers, removeIfPresent_nextId]
    exact List.mem_append_right _ (List.mem_singleton_self _)
  · have he : cla + (r1 - 1/2) * (1/5) - cla = (r1 - 1/2) * (1/5) := by ring
    rw [he, abs_le]
    constructor <;> nlinarith
  · have he : cln + (r2 - 1/2) * (1/5) - cln = (r2 - 1/2) * (1/5) := by ring
    rw [he, abs_le]
    constructor <;> nlinarith

/-- Witness for `C10_no_city_frame_and_offset` at concrete inputs. -/
theorem C10_no_city_frame_and_offset_witness :
    stepEvent (.distDetail "317101" (.resolved true (some "Kec. X")))
        (stepEvent (.selDistrict (some "317101")) initState)
        = stepEvent (.selDistrict (some "317101")) initState ∧
      stepEvent (.selDistrict (some "317101")) initState
        = {initState with sel := {initState.sel with
            district := some "317101", village := none}} ∧
      stepEvent (.villDetail "317101" (.resolved true (some "Kec. X")))
        (stepEvent (.selVillage (some "317101")) initState)
        = stepEvent (.selVillage (some "317101")) initState ∧
      stepEvent (.selVillage (some "317101")) initState
        = {initState with sel := {initState.sel with village := some "317101"}} ∧
      (⟨initState.nextId, .distMarker, .markerAt
          (some ((-7 : ℚ) + ((1/4 : ℚ) - 1/2) * (1/10)),
           some ((113 : ℚ) + ((3/4 : ℚ) - 1/2) * (1/10))) "Kec. X"⟩ : Layer)
        ∈ (stepEvent (.distCityGeo "Kec. X" (.resolved true (some geoB)) (1/4) (3/4))
            initState).layers ∧
      |(-7 : ℚ) + ((1/4 : ℚ) - 1/2) * (1/10) - (-7)| ≤ 1/20 ∧
      |(113 : ℚ) + ((3/4 : ℚ) - 1/2) * (1/10) - 113| ≤ 1/20 ∧
      (⟨initState.nextId, .villMarker, .markerAt
          (some ((-7 : ℚ) + ((1/4 : ℚ) - 1/2) * (1/5)),
           some ((113 : ℚ) + ((3/4 : ℚ) - 1/2) * (1/5))) "Kec. X"⟩ : Layer)
        ∈ (stepEvent (.villCityGeo "Kec. X" (.resolved true (some geoB)) (1/4) (3/4))
            initState).layers ∧
      |(-7 : ℚ) + ((1/4 : ℚ) - 1/2) * (1/5) - (-7)| ≤ 1/10 ∧
      |(113 : ℚ) + ((3/4 : ℚ) - 1/2) * (1/5) - 113| ≤ 1/10 :=
  C10_no_city_frame_and_offset initState "317101"
    (.resolved true (some "Kec. X")) "Kec. X" geoB (-7) (113) (1/4) (3/4)
    rfl (by norm_num) (by norm_num) (by norm_num) (by norm_num) rfl rfl

theorem cleanPoly_two_point (a b : JsVal) : cleanPoly (.arr [a, b]) = .ok none := by
  have hlen : (([a, b].filter validPt).map toPt).length < 3 := by
    rw [List.length_map]
    have h2 := List.length_filter_le validPt [a, b]
    simp only [List.length_cons, List.length_nil] at h2
    omega
  simp only [cleanPoly, if_pos hlen]

theorem mapPolys_all_two_point (polys : List JsVal)
    (h : ∀ p ∈ polys, ∃ p1 p2, p = .arr [p1, p2]) :
    mapPolys polys = .ok (polys.map (fun _ => none)) := by
  induction polys with
  | nil => rfl
  | cons p ps ih =>
    obtain ⟨p1, p2, rfl⟩ := h p (List.mem_cons_self _ _)
    rw [mapPolys, cleanPoly_two_point,
      ih (fun q hq => h q (List.mem_cons_of_mem _ hq)), List.map_cons]

theorem filterMap_id_all_none (l : List JsVal) :
    (l.map (fun _ => (none : Option (List Point)))).filterMap id = [] := by
  induction l with
  | nil => rfl
  | cons x xs ih => simp [ih]

theorem boundaryPolygons_two_point {polys : List JsVal}
    (hne : polys ≠ [])
    (h : ∀ p ∈ polys, ∃ p1 p2, p = .arr [p1, p2] ∧ p1.isArray = true) :
    boundaryPolygons (.arr polys) = .ok [] := by
  obtain ⟨p0, rest, rfl⟩ : ∃ p0 rest, polys = p0 :: rest := by
    cases polys with
    | nil => exact absurd rfl hne
    | cons a t => exact ⟨a, t, rfl⟩
  obtain ⟨p1, p2, hp0, hp1⟩ := h p0 (List.mem_cons_self _ _)
  subst hp0
  have e1 : jsIndex0 (.arr (JsVal.arr [p1, p2] :: rest)) = .ok (.arr [p1, p2]) := rfl
  have e2 : jsIndex0 (.arr [p1, p2]) = .ok p1 := rfl
  rw [boundaryPolygons, e1]
  simp only [e2, hp1, if_true]
  show multiPolys (JsVal.arr [p1, p2] :: rest) = .ok []
  rw [multiPolys, mapPolys_all_two_point _
    (fun q hq => (h q hq).imp (fun a ha => ha.imp (fun b hb => hb.1)))]
  show Except.ok (((JsVal.arr [p1, p2] :: rest).map
    (fun _ => (none : Option (List Point)))).filterMap id) = Except.ok []
  rw [filterMap_id_all_none]

theorem renderBoundary_of_error {k : LKind} {v : JsVal} {s : MState}
    (h : boundaryPolygons v = .error ()) : renderBoundary k v s = s := by
  rw [renderBoundary, h]

theorem renderBoundary_of_nil {k : LKind} {v : JsVal} {s : MState}
    (h : boundaryPolygons v = .ok []) : renderBoundary k v s = s := by
  rw [renderBoundary, h]

/-- **C6:** on a malformed (non-JSON) string payload, an empty-array payload,
and a payload of only 2-point polygons, the boundary renderer produces an
empty renderable set and adds no boundary layer (no layer is ever
constructed: `nextId` is unchanged); exceptions raised along the way are
absorbed by the function's `try`/`catch`, never escaping it. -/
theorem C6_bad_inputs_empty (s : MState) (polys : List JsVal)
    (hne : polys ≠ [])
    (h2pt : ∀ p ∈ polys, ∃ p1 p2, p = .arr [p1, p2] ∧ p1.isArray = true) :
    (showBoundaryF .provBoundary (.strPayload none) s).nextId = s.nextId ∧
      renderedRings (.arr []) = [] ∧
      (showBoundaryF .provBoundary (.strPayload (some (.arr []))) s).nextId
        = s.nextId ∧
      renderedRings (.arr polys) = [] ∧
      (showBoundaryF .provBoundary (.strPayload (some (.arr polys))) s).nextId
        = s.nextId := by
  refine ⟨by simp [showBoundaryF], rfl, ?_, ?_, ?_⟩
  · show (renderBoundary .provBoundary (.arr [])
      (removeIfPresent (kindField s .provBoundary) s)).nextId = s.nextId
    have hbp : boundaryPolygons (JsVal.arr []) = Except.error () := rfl
    rw [renderBoundary_of_error hbp, removeIfPresent_nextId]
  · rw [renderedRings, boundaryPolygons_two_point hne h2pt]
  · show (renderBoundary .provBoundary (.arr polys)
      (removeIfPresent (kindField s .provBoundary) s)).nextId = s.nextId
    rw [renderBoundary_of_nil (boundaryPolygons_two_point hne h2pt),
      removeIfPresent_nextId]

/-- Witness for `C6_bad_inputs_empty` at concrete inputs. -/
theorem C6_bad_inputs_empty_witness :
    (showBoundaryF .provBoundary (.strPayload none) initState).nextId
        = initState.nextId ∧
      renderedRings (.arr []) = [] ∧
      (showBoundaryF .provBoundary (.strPayload (some (.arr []))) initState).nextId
        = initState.nextId ∧
      renderedRings (.arr twoPointPayload) = [] ∧
      (showBoundaryF .provBoundary (.strPayload (some (.arr twoPointPayload)))
        initState).nextId = initState.nextId :=
  C6_bad_inputs_empty initState twoPointPayload (by simp [twoPointPayload])
    (by
      intro p hp
      simp only [twoPointPayload, List.mem_singleton] at hp
      exact ⟨_, _, hp, rfl⟩)

end IndoMaps
